import Mathlib

/-!
Verification development for the DeployShield anomaly-scoring core
(`src/server/engines/`): a shallow embedding of `AlertEngine.js`,
`IsolationForest.js`, `ScoringEngine.js` and `AttributionEngine.js`,
followed by theorems settling the frozen claims about them.

Conventions of the embedding:
* JS numbers that only ever hold integer or finitely-represented values
  (risk scores, alert bookkeeping, attribution inputs) are modelled as
  `ℤ`/`ℚ`, keeping those definitions executable; quantities produced by
  `Math.exp` / `Math.sqrt` / `Math.pow` are modelled in `ℝ`.
* `Math.round` and `Number.toFixed` round ties toward +∞ (ECMAScript picks
  the larger candidate), which is exactly Mathlib's `round`.
* Sources of environment data (`Date.now()`, `Math.random()`) are passed
  in as explicit parameters or, for the random tree construction of the
  isolation forest, as a nondeterministic choice constrained by an
  inductive "buildable" relation mirroring the recursive builder.
-/

namespace DeployShield

/-! ## Shared JS helpers -/

/-- JS `x || d` for an optionally-present string field: `undefined` and the
empty string are falsy. -/
def jsOrS : Option String → String → String
  | some s, d => if s = "" then d else s
  | none, d => d

/-- JS `x || d` for an optionally-present numeric field: `undefined` and `0`
are falsy (`NaN` does not arise for the fields this is applied to). -/
def jsOrQ : Option ℚ → ℚ → ℚ
  | some q, d => if q = 0 then d else q
  | none, d => d

/-- JS `x || d` on a real number: `0` is falsy. -/
noncomputable def jsOrR (x d : ℝ) : ℝ := if x = 0 then d else x

/-- JS `n.toFixed(0)` read back as a number-string for a rational `n`
(ties round toward +∞ per the ECMAScript specification). -/
def qToFixed0 (x : ℚ) : String := toString (round x)

/-- JS `n.toFixed(2)` for a rational `n`: two decimal digits, ties toward +∞. -/
def qToFixed2 (x : ℚ) : String :=
  let n : ℤ := round (x * 100)
  let sign := if n < 0 then "-" else ""
  let m := n.natAbs
  sign ++ toString (m / 100) ++ "." ++ (if m % 100 < 10 then "0" else "") ++ toString (m % 100)

/-- JS `Number(x.toFixed(d))` on a real: round to `d` decimal places,
ties toward +∞. -/
noncomputable def roundTo (d : ℕ) (x : ℝ) : ℝ := (round (x * 10 ^ d) : ℤ) / 10 ^ d

/-! ## AlertEngine (`src/server/engines/AlertEngine.js`)

The engine consumes integer risk scores and the ranked attribution list.
Only the `label`/`key`/`pct`/`z` fields of attribution records are read by
the alert engine; they reach it as plain JS numbers, modelled as `ℚ` here
so that the whole engine stays executable. -/

/-- Severity tiers (the keys of `THRESHOLDS`). -/
inductive Sev
  | WARNING
  | CRITICAL
  | EMERGENCY
deriving DecidableEq, Repr

/-- Printed form of a severity, as interpolated into alert messages. -/
def Sev.str : Sev → String
  | .WARNING => "WARNING"
  | .CRITICAL => "CRITICAL"
  | .EMERGENCY => "EMERGENCY"

/-- One tier of the `THRESHOLDS` table. -/
structure Threshold where
  score : ℤ
  consecutiveTicks : ℕ
  color : String
deriving DecidableEq, Repr

def THRESHOLDS.WARNING : Threshold := ⟨50, 3, "#EAB308"⟩

def THRESHOLDS.CRITICAL : Threshold := ⟨72, 1, "#F97316"⟩

def THRESHOLDS.EMERGENCY : Threshold := ⟨86, 1, "#EF4444"⟩

/-- The fields of an attribution record that `AlertEngine` reads. -/
structure AttrEntry where
  label : String
  key : String
  pct : ℚ
  z : ℚ
deriving DecidableEq, Repr

/-- Environment inputs consumed when an alert object is built:
`Date.now()`, the random id suffix, and the two timestamp renderings. -/
structure AlertEnv where
  nowMs : ℤ
  rand : String
  ts : String
  iso : String
deriving DecidableEq, Repr

/-- An alert record as built by `AlertEngine.evaluate`. -/
structure Alert where
  id : String
  sev : Sev
  score : ℤ
  deploymentId : String
  ts : String
  isoTime : String
  primaryDriver : String
  primaryKey : String
  pct : ℚ
  z : ℚ
  attribution : List AttrEntry
  message : String
  action : String
  autoAnalyze : Bool
deriving DecidableEq, Repr

/-- Mutable state of an `AlertEngine` (the fields set by `reset()`).
`sevHistory` is a JS `Set`, modelled as a duplicate-free insertion-ordered
list. -/
structure AlertState where
  consecutiveHigh : ℕ
  lastFiredScore : ℤ
  lastFiredSev : Option Sev
  activeAlerts : List Alert
  sevHistory : List Sev
deriving DecidableEq, Repr

/-- `AlertEngine.reset()`. -/
def AlertState.reset : AlertState := ⟨0, 0, none, [], []⟩

/-- `Set.add` semantics for `sevHistory`. -/
def sevAdd (h : List Sev) (s : Sev) : List Sev := if h.contains s then h else h ++ [s]

/-- The consecutive-high counter update at the top of `evaluate`. -/
def nextConsecutive (prev : ℕ) (score : ℤ) : ℕ :=
  if THRESHOLDS.WARNING.score ≤ score then prev + 1 else 0

/-- Severity selection in `evaluate` (the nested ternary), given the already
updated consecutive-high counter. -/
def chosenSev (consecutiveHigh : ℕ) (score : ℤ) : Option Sev :=
  if THRESHOLDS.EMERGENCY.score ≤ score then some .EMERGENCY
  else if THRESHOLDS.CRITICAL.score ≤ score then some .CRITICAL
  else if THRESHOLDS.WARNING.consecutiveTicks ≤ consecutiveHigh then some .WARNING
  else none

/-- `AlertEngine._buildMessage(sev, score, topMetric)`; `topMetric` is
`attribution[0] || {}`, i.e. `none` when the attribution list is empty. -/
def buildMessage (sev : Sev) (score : ℤ) (topMetric : Option AttrEntry) : String :=
  let dir := if 0 < jsOrQ (topMetric.map (·.pct)) 0 then "↑" else "↓"
  let pct := qToFixed0 |jsOrQ (topMetric.map (·.pct)) 0|
  let label := jsOrS (topMetric.map (·.label)) "metrics"
  sev.str ++ ": Risk " ++ toString score ++ "/100 — " ++ label ++ " " ++ dir ++ pct ++
    "% from baseline (Z=" ++ qToFixed2 (jsOrQ (topMetric.map (·.z)) 0) ++ ")"

/-- `AlertEngine._recommendAction(sev, topMetric)` (the `'Monitor situation.'`
fallback is unreachable: every `Sev` value has an entry). -/
def recommendAction (sev : Sev) (topMetric : Option AttrEntry) : String :=
  match sev with
  | .EMERGENCY => "Consider immediate rollback. Automated rollback at 86+ (v2)."
  | .CRITICAL => "Page on-call SRE. Review recent commits for " ++
      jsOrS (topMetric.map (·.label)) "affected service" ++ "."
  | .WARNING => "Monitor closely. Prepare rollback runbook."

/-- The alert object literal built inside `evaluate` when an alert fires
(`topMetric` is `attribution[0] || {}`). -/
def mkAlert (env : AlertEnv) (score : ℤ) (attribution : List AttrEntry)
    (deploymentId : String) (sev : Sev) : Alert :=
  let topMetric := attribution.head?
  { id := "alert-" ++ toString env.nowMs ++ "-" ++ env.rand
    sev := sev
    score := score
    deploymentId := deploymentId
    ts := env.ts
    isoTime := env.iso
    primaryDriver := jsOrS (topMetric.map (·.label)) "Unknown"
    primaryKey := jsOrS (topMetric.map (·.key)) ""
    pct := jsOrQ (topMetric.map (·.pct)) 0
    z := jsOrQ (topMetric.map (·.z)) 0
    attribution := attribution.take 3
    message := buildMessage sev score topMetric
    action := recommendAction sev topMetric
    autoAnalyze := sev == Sev.CRITICAL || sev == Sev.EMERGENCY }

/-- `AlertEngine.evaluate(score, attribution, deploymentId)`.
Returns the fired alert (or `none`) together with the updated state.
The email side effect for CRITICAL/EMERGENCY is external I/O and does not
touch engine state, so it is not modelled. -/
def evaluate (env : AlertEnv) (score : ℤ) (attribution : List AttrEntry)
    (deploymentId : String) (s : AlertState) : Option Alert × AlertState :=
  let consecutiveHigh := nextConsecutive s.consecutiveHigh score
  match chosenSev consecutiveHigh score with
  | none => (none, { s with consecutiveHigh := consecutiveHigh })
  | some sev =>
    let alreadyFired := s.sevHistory.contains sev
    let scoreDelta := score - s.lastFiredScore
    if alreadyFired && decide (scoreDelta < 10) then
      (none, { s with consecutiveHigh := consecutiveHigh })
    else
      let alert := mkAlert env score attribution deploymentId sev
      (some alert,
        { consecutiveHigh := consecutiveHigh
          lastFiredScore := score
          lastFiredSev := some sev
          activeAlerts := alert :: s.activeAlerts
          sevHistory := sevAdd s.sevHistory sev })

/-- Repeated `evaluate` calls (one per scoring tick) with a fixed
environment, attribution list and deployment id, from a given state;
returns the list of outputs and the final state. -/
def runEval (env : AlertEnv) (dep : String) (attr : List AttrEntry) (scores : List ℤ)
    (s : AlertState) : List (Option Alert) × AlertState :=
  match scores with
  | [] => ([], s)
  | sc :: rest =>
    let r := evaluate env sc attr dep s
    let rr := runEval env dep attr rest r.2
    (r.1 :: rr.1, rr.2)

/-! ## IsolationForest (`src/server/engines/IsolationForest.js`) -/

/-- The four metric fields a tree may split on (`this.features`). -/
inductive Feature
  | rate
  | errorRate
  | p99
  | saturation
deriving DecidableEq, Repr

def forestFeatures : List Feature := [.rate, .errorRate, .p99, .saturation]

/-- A fully populated numeric metric snapshot, as fed to the forest. -/
structure MSnap where
  rate : ℚ
  errorRate : ℚ
  p99 : ℚ
  saturation : ℚ
deriving DecidableEq, Repr

/-- Field access `point[feature]`. -/
def MSnap.get (s : MSnap) : Feature → ℚ
  | .rate => s.rate
  | .errorRate => s.errorRate
  | .p99 => s.p99
  | .saturation => s.saturation

/-- An `IsoNode`: either a leaf (holding the partition size for the
path-length correction) or an internal split node. -/
inductive IsoNode
  | leaf (size : ℕ)
  | node (feature : Feature) (splitVal : ℚ) (left right : IsoNode)
deriving DecidableEq, Repr

/-- `IsoTree.c(n)` — expected path length of a random BST of size `n`,
with the Euler–Mascheroni correction, exactly as written in the source. -/
noncomputable def IsoTree.c (n : ℕ) : ℝ :=
  if n ≤ 1 then 0
  else if n = 2 then 1
  else 2 * (Real.log ((n : ℝ) - 1) + 0.5772156649) - 2 * ((n : ℝ) - 1) / n

/-- `IsoTree.pathLength(node, point, depth)`: +1 per traversed split
(strictly-less goes left), plus `c(leafSize)` at the leaf. -/
noncomputable def pathLength : IsoNode → MSnap → ℝ → ℝ
  | .leaf size, _, depth => depth + IsoTree.c size
  | .node f split l r, p, depth =>
    if p.get f < split then pathLength l p (depth + 1) else pathLength r p (depth + 1)

/-- Forest state: `nTrees`/`sub` from the constructor, the `trained` flag
and the list of built trees. The per-tree `cNorm` stored by the source is
`tree.c(this.sub)` for every tree — a pure function of `sub` — so `score`
below uses `IsoTree.c sub` directly where the source reads
`this.forest[0].cNorm`. -/
structure IsolationForest where
  nTrees : ℕ
  sub : ℕ
  trained : Bool
  forest : List IsoNode
deriving Repr

/-- `new IsolationForest(nTrees, subsampleSize)`. -/
def IsolationForest.init (nTrees sub : ℕ) : IsolationForest := ⟨nTrees, sub, false, []⟩

/-- `IsolationForest.train(data)`. The trees are produced by the random
recursive builder; the embedding takes the built trees as an explicit
parameter (`builtTrees`), used only when the length guard passes. The
reachability relations below constrain the parameter to trees the builder
can actually produce. -/
def IsolationForest.train (f : IsolationForest) (data : List MSnap)
    (builtTrees : List IsoNode) : Bool × IsolationForest :=
  if data.length < 10 then (false, f)
  else (true, { f with trained := true, forest := builtTrees })

/-- `IsolationForest.score(point)`: neutral `0.5` while untrained,
otherwise `2^(-avgPath / c(sub))`. -/
noncomputable def IsolationForest.score (f : IsolationForest) (point : MSnap) : ℝ :=
  if f.trained = false then 0.5
  else
    let avgPath := ((f.forest.map fun t => pathLength t point 0).sum) / (f.nTrees : ℝ)
    (2 : ℝ) ^ (-avgPath / IsoTree.c f.sub)

/-- Payload of `IsolationForest.getStats()` (`maxDepth = ceil(log2 sub)`,
exact for the power-of-two subsample size used by the pipeline). -/
structure IFStats where
  trained : Bool
  nTrees : ℕ
  subsampleSize : ℕ
  maxDepth : ℕ
deriving DecidableEq, Repr

def IsolationForest.getStats (f : IsolationForest) : IFStats :=
  ⟨f.trained, f.nTrees, f.sub, Nat.clog 2 f.sub⟩

/-- `IsoTree.build(data, features, maxDepth, depth)` as a nondeterministic
relation: `BuildR data maxDepth depth t` holds exactly when the recursive
builder can return `t` for some outcome of its random feature and split
choices (`split = mn + Math.random() * (mx - mn)` lies in `[mn, mx)`). -/
inductive BuildR : List MSnap → ℕ → ℕ → IsoNode → Prop
  | leaf (data : List MSnap) (maxDepth depth : ℕ)
      (h : maxDepth ≤ depth ∨ data.length ≤ 1) :
      BuildR data maxDepth depth (.leaf data.length)
  | leafSame (data : List MSnap) (maxDepth depth : ℕ) (f : Feature) (mn mx : ℚ)
      (hd : ¬(maxDepth ≤ depth ∨ data.length ≤ 1))
      (hf : f ∈ forestFeatures)
      (hmn : (data.map (·.get f)).min? = some mn)
      (hmx : (data.map (·.get f)).max? = some mx)
      (hmnmx : mx ≤ mn) :
      BuildR data maxDepth depth (.leaf data.length)
  | node (data : List MSnap) (maxDepth depth : ℕ) (f : Feature) (mn mx split : ℚ)
      (l r : IsoNode)
      (hd : ¬(maxDepth ≤ depth ∨ data.length ≤ 1))
      (hf : f ∈ forestFeatures)
      (hmn : (data.map (·.get f)).min? = some mn)
      (hmx : (data.map (·.get f)).max? = some mx)
      (hlt : mn < mx) (hs1 : mn ≤ split) (hs2 : split < mx)
      (hl : BuildR (data.filter fun x => decide (x.get f < split)) maxDepth (depth + 1) l)
      (hr : BuildR (data.filter fun x => decide (¬(x.get f < split))) maxDepth (depth + 1) r) :
      BuildR data maxDepth depth (.node f split l r)

/-- `IsolationForest._subsample(data, n)`: a random shuffle followed by
`slice(0, min(n, length))`. -/
def SubsampleR (data : List MSnap) (n : ℕ) (sample : List MSnap) : Prop :=
  ∃ shuffled, data.Perm shuffled ∧ sample = shuffled.take (min n shuffled.length)

/-- Constraint on the `builtTrees` parameter of `train`: the list the
random builder can produce — `nTrees` trees, each built to
`maxDepth = ceil(log2 sub)` from some random subsample of the data. -/
def TrainChoiceOK (f : IsolationForest) (data : List MSnap) (trees : List IsoNode) : Prop :=
  trees.length = f.nTrees ∧
    ∀ t ∈ trees, ∃ sample, SubsampleR data f.sub sample ∧
      BuildR sample (Nat.clog 2 f.sub) 0 t

/-! ## ScoringEngine (`src/server/engines/ScoringEngine.js`) -/

def BASELINE_TICKS_NEEDED : ℕ := 12

inductive Phase
  | IDLE
  | LEARNING
  | SCORING
deriving DecidableEq, Repr

inductive Trend
  | rising
  | falling
  | stable
deriving DecidableEq, Repr

/-- Mutable state of a `ScoringEngine` (the fields set by `reset()`). -/
structure ScoringEngine where
  IF : IsolationForest
  ewma : ℝ
  alpha : ℝ
  trained : Bool
  lastScore : ℤ
  scoreHistory : List ℤ

/-- `ScoringEngine.reset()`. -/
noncomputable def ScoringEngine.reset : ScoringEngine :=
  { IF := IsolationForest.init 80 128
    ewma := 0.5
    alpha := 0.32
    trained := false
    lastScore := 0
    scoreHistory := [] }

/-- `ScoringEngine.calibrate(x)` — `Math.round(Math.max(0, Math.min(100,
100 / (1 + Math.exp(-13 * (x - 0.61))))))`. -/
noncomputable def ScoringEngine.calibrate (x : ℝ) : ℤ :=
  round (max 0 (min 100 (100 / (1 + Real.exp (-13 * (x - 0.61))))))

/-- Local `recent` of `_computeTrend`: `slice(-6)` (the whole list when it
is shorter than 6, which matches truncated subtraction in `drop`). -/
def recent6 (scoreHistory : List ℤ) : List ℤ := scoreHistory.drop (scoreHistory.length - 6)

/-- Local `avg` of `_computeTrend`: mean of the last (up to) 6 scores. -/
def trendAvg (scoreHistory : List ℤ) : ℚ :=
  ((recent6 scoreHistory).map fun z => (z : ℚ)).sum / ((recent6 scoreHistory).length : ℚ)

/-- Local `prev` of `_computeTrend`: `recent[0]`, the oldest of the last 6
scores (the list is nonempty whenever `_computeTrend` reads it). -/
def trendPrev (scoreHistory : List ℤ) : ℚ := (((recent6 scoreHistory).head?.getD 0 : ℤ) : ℚ)

/-- `ScoringEngine._computeTrend()` as a function of the score ring buffer. -/
def computeTrend (scoreHistory : List ℤ) : Trend :=
  if scoreHistory.length < 3 then .stable
  else
    let delta := trendAvg scoreHistory - trendPrev scoreHistory
    if 8 < delta then .rising
    else if delta < -8 then .falling
    else .stable

/-- Result object of `ScoringEngine.update` (absent JS fields are `none`). -/
structure SResult where
  score : ℤ
  phase : Phase
  progress : Option ℚ
  ticksRemaining : Option ℤ
  ifScore : Option ℝ
  ewmaScore : Option ℝ
  combined : Option ℝ
  ifStats : Option IFStats
  trend : Option Trend

/-- `ScoringEngine.update(snapshot, history)`. As with `train`, the trees
a training call would randomly build are an explicit `oracle` parameter
(ignored on every non-training path). -/
noncomputable def ScoringEngine.update (s : ScoringEngine) (snapshot : Option MSnap)
    (history : List MSnap) (oracle : List IsoNode) : SResult × ScoringEngine :=
  match snapshot with
  | none => (⟨0, .IDLE, none, none, none, none, none, none, none⟩, s)
  | some snap =>
    if history.length < BASELINE_TICKS_NEEDED then
      (⟨0, .LEARNING, some ((history.length : ℚ) / (BASELINE_TICKS_NEEDED : ℚ)),
        some ((BASELINE_TICKS_NEEDED : ℤ) - (history.length : ℤ)), none, none, none,
        some s.IF.getStats, none⟩, s)
    else
      let tr := if s.trained = false
        then s.IF.train (history.take BASELINE_TICKS_NEEDED) oracle
        else (true, s.IF)
      if tr.1 = false then
        (⟨0, .LEARNING, some (99 / 100), none, none, none, none, none, none⟩, s)
      else
        let IF1 := tr.2
        let ifScore := IF1.score snap
        let ewma := s.alpha * ifScore + (1 - s.alpha) * s.ewma
        let combined := 0.62 * ifScore + 0.38 * ewma
        let score := ScoringEngine.calibrate combined
        let scoreHistory := s.scoreHistory.drop (s.scoreHistory.length - 59) ++ [score]
        (⟨score, .SCORING, none, none, some (roundTo 4 ifScore), some (roundTo 4 ewma),
          some (roundTo 4 combined), some IF1.getStats, some (computeTrend scoreHistory)⟩,
         { s with IF := IF1, trained := true, ewma := ewma, lastScore := score,
                  scoreHistory := scoreHistory })

/-- States of the scoring engine reachable from `reset()` by `update`
calls, with training-tick tree choices restricted to what the random
builder can produce. -/
inductive SReach : ScoringEngine → Prop
  | init : SReach ScoringEngine.reset
  | step (s : ScoringEngine) (snapshot : Option MSnap) (history : List MSnap)
      (oracle : List IsoNode) (h : SReach s)
      (hok : s.trained = false → BASELINE_TICKS_NEEDED ≤ history.length →
        snapshot.isSome → TrainChoiceOK s.IF (history.take BASELINE_TICKS_NEEDED) oracle) :
      SReach (s.update snapshot history oracle).2

/-- One step of the EWMA recurrence from `update`
(`this.ewma = α * ifScore + (1 - α) * this.ewma`), iterated `n` times on a
constant forest score. -/
noncomputable def ewmaIter (alpha sc e0 : ℝ) : ℕ → ℝ
  | 0 => e0
  | n + 1 => alpha * sc + (1 - alpha) * ewmaIter alpha sc e0 n

/-! ## AttributionEngine (`src/server/engines/AttributionEngine.js`) -/

/-- One entry of `METRIC_META`. -/
structure MetricMeta where
  key : String
  label : String
  unit : String
  inverse : Bool
deriving DecidableEq, Repr

def METRIC_META : List MetricMeta :=
  [⟨"rate", "Request Rate", "req/s", true⟩,
   ⟨"errorRate", "Error Rate", "%", false⟩,
   ⟨"p99", "P99 Latency", "ms", false⟩,
   ⟨"saturation", "Saturation", "%", false⟩]

/-- A snapshot as seen by the attribution engine: fields may be
null/undefined (the `v != null && !isNaN(v)` filter and the `?? 0`
default both act on missing values, modelled by `Option`). -/
structure ASnap where
  rate : Option ℚ
  errorRate : Option ℚ
  p99 : Option ℚ
  saturation : Option ℚ
deriving DecidableEq, Repr

/-- Dynamic field access `h[key]` for the four metric keys. -/
def ASnap.get (s : ASnap) (key : String) : Option ℚ :=
  if key = "rate" then s.rate
  else if key = "errorRate" then s.errorRate
  else if key = "p99" then s.p99
  else if key = "saturation" then s.saturation
  else none

inductive SevTier
  | normal
  | elevated
  | warning
  | critical
deriving DecidableEq, Repr

/-- The severity ternary chain of `AttributionEngine.compute`, applied to
`Math.abs(z)`. -/
noncomputable def tierOf (absZ : ℝ) : SevTier :=
  if 3.5 < absZ then .critical
  else if 2 < absZ then .warning
  else if 1 < absZ then .elevated
  else .normal

/-- `vals` — the baseline values of one metric with null entries filtered out. -/
def attrVals (baseline : List ASnap) (m : MetricMeta) : List ℚ :=
  baseline.filterMap fun h => h.get m.key

/-- `mean` over the filtered baseline values. -/
def attrMean (baseline : List ASnap) (m : MetricMeta) : ℚ :=
  (attrVals baseline m).sum / ((attrVals baseline m).length : ℚ)

/-- Population `variance` over the filtered baseline values. -/
def attrVariance (baseline : List ASnap) (m : MetricMeta) : ℚ :=
  ((attrVals baseline m).map fun b => (b - attrMean baseline m) ^ 2).sum /
    ((attrVals baseline m).length : ℚ)

/-- `std = Math.sqrt(variance) || 1`. -/
noncomputable def attrStd (baseline : List ASnap) (m : MetricMeta) : ℝ :=
  jsOrR (Real.sqrt ((attrVariance baseline m : ℚ) : ℝ)) 1

/-- `cur = snapshot[key] ?? 0` (nullish coalescing: only missing values
are replaced, unlike `||`). -/
def attrCur (snap : ASnap) (m : MetricMeta) : ℚ := (snap.get m.key).getD 0

/-- `rawZ = (cur - mean) / std`. -/
noncomputable def attrRawZ (snap : ASnap) (baseline : List ASnap) (m : MetricMeta) : ℝ :=
  (((attrCur snap m : ℚ) : ℝ) - ((attrMean baseline m : ℚ) : ℝ)) / attrStd baseline m

/-- `z = inverse ? -rawZ : rawZ`. -/
noncomputable def attrZ (snap : ASnap) (baseline : List ASnap) (m : MetricMeta) : ℝ :=
  if m.inverse then -attrRawZ snap baseline m else attrRawZ snap baseline m

/-- `pct = ((cur - mean) / Math.abs(mean || 1)) * 100`. -/
def attrPct (snap : ASnap) (baseline : List ASnap) (m : MetricMeta) : ℚ :=
  (attrCur snap m - attrMean baseline m) / |jsOrQ (some (attrMean baseline m)) 1| * 100

/-- The record built for one metric (numeric fields carry the
`Number(x.toFixed(k))` roundings of the source). -/
structure AttributionRecord where
  key : String
  label : String
  unit : String
  inverse : Bool
  cur : ℝ
  mean : ℝ
  std : ℝ
  z : ℝ
  rawZ : ℝ
  pct : ℝ
  severity : SevTier

/-- The body of the `METRIC_META.map` callback in `compute` (returns
`none` where the source returns `null` for a metric with no usable
baseline values). -/
noncomputable def attrEntryFor (snap : ASnap) (baseline : List ASnap) (m : MetricMeta) :
    Option AttributionRecord :=
  if (attrVals baseline m).length = 0 then none
  else some
    { key := m.key
      label := m.label
      unit := m.unit
      inverse := m.inverse
      cur := roundTo 2 ((attrCur snap m : ℚ) : ℝ)
      mean := roundTo 2 ((attrMean baseline m : ℚ) : ℝ)
      std := roundTo 2 (attrStd baseline m)
      z := roundTo 3 |attrZ snap baseline m|
      rawZ := roundTo 3 (attrRawZ snap baseline m)
      pct := roundTo 1 ((attrPct snap baseline m : ℚ) : ℝ)
      severity := tierOf |attrZ snap baseline m| }

/-- `AttributionEngine.compute(snapshot, baseline)`: map over
`METRIC_META`, drop `null`s, stable-sort descending by the `z` field
(the JS comparator `(a, b) => b.z - a.z`). -/
noncomputable def AttributionEngine.compute (snapshot : Option ASnap) (baseline : List ASnap) :
    List AttributionRecord :=
  match snapshot with
  | none => []
  | some snap =>
    if baseline.length < 10 then []
    else
      (METRIC_META.filterMap (attrEntryFor snap baseline)).mergeSort
        fun a b => decide (b.z ≤ a.z)

/-! ## Concrete inputs used by counterexamples and witnesses -/

/-- Fixed environment for alert-engine evaluations (`Date.now()` etc. do
not influence any claim). -/
def cenv : AlertEnv := ⟨0, "r", "t", "i"⟩

/-- Baseline point `i` of the C8 trace: all metrics flat except a
distinct `p99` value. -/
def normalPt (i : ℚ) : MSnap := ⟨0, 0, i, 0⟩

/-- The 12th tick of the C8 trace: an error-rate spike. -/
def spikePt : MSnap := ⟨0, 100, 0, 0⟩

/-- History at the training tick: eleven flat points, then the spike. -/
def cexHist12 : List MSnap :=
  [normalPt 1, normalPt 2, normalPt 3, normalPt 4, normalPt 5, normalPt 6,
   normalPt 7, normalPt 8, normalPt 9, normalPt 10, normalPt 11, spikePt]

/-- History at the next scoring tick (three more raw ticks appended, as
the caller scores every third 5-second tick). -/
def cexHist15 : List MSnap := cexHist12 ++ [normalPt 11, normalPt 11, normalPt 11]

/-- A tree the random builder can produce from `cexHist12` (maxDepth 7):
the root split isolates the spike (path length 1); the left chain peels
off one flat point per level until depth 7 forces a leaf of the remaining
5 points, so the flat point with `p99 = 11` has path length `7 + c(5)`. -/
def cexTree : IsoNode :=
  .node .errorRate 50
    (.node .p99 2 (.leaf 1)
      (.node .p99 3 (.leaf 1)
        (.node .p99 4 (.leaf 1)
          (.node .p99 5 (.leaf 1)
            (.node .p99 6 (.leaf 1)
              (.node .p99 7 (.leaf 1) (.leaf 5)))))))
    (.leaf 1)

/-- All 80 trees built identically (possible outcome of the independent
random choices). -/
def cexForest : List IsoNode := List.replicate 80 cexTree

/-- The forest state installed by the training tick of the C8 trace. -/
def cexIF : IsolationForest := ⟨80, 128, true, cexForest⟩

/-- Forest score of the spike snapshot against `cexIF`. -/
noncomputable def cexIf1 : ℝ := cexIF.score spikePt

/-- EWMA after the training tick of the C8 trace. -/
noncomputable def cexEwma1 : ℝ := 0.32 * cexIf1 + (1 - 0.32) * 0.5

/-- Combined signal at the training tick of the C8 trace. -/
noncomputable def cexComb1 : ℝ := 0.62 * cexIf1 + 0.38 * cexEwma1

/-- Risk score of the training tick of the C8 trace. -/
noncomputable def cexScore1 : ℤ := ScoringEngine.calibrate cexComb1

/-- Forest score of the recovered (flat) snapshot against `cexIF`. -/
noncomputable def cexIf2 : ℝ := cexIF.score (normalPt 11)

/-- EWMA after the second scoring tick of the C8 trace. -/
noncomputable def cexEwma2 : ℝ := 0.32 * cexIf2 + (1 - 0.32) * cexEwma1

/-- Combined signal at the second scoring tick of the C8 trace. -/
noncomputable def cexComb2 : ℝ := 0.62 * cexIf2 + 0.38 * cexEwma2

/-- Risk score of the second scoring tick of the C8 trace. -/
noncomputable def cexScore2 : ℤ := ScoringEngine.calibrate cexComb2

/-- Engine state after the training tick of the C8 trace. -/
noncomputable def cexS1 : ScoringEngine :=
  (ScoringEngine.reset.update (some spikePt) cexHist12 cexForest).2

/-- Result and state of the following scoring tick of the C8 trace. -/
noncomputable def cexStep2 : SResult × ScoringEngine :=
  cexS1.update (some (normalPt 11)) cexHist15 []

/-- C5 counterexample snapshot: `errorRate` 3.5004 standard deviations
above its baseline mean. -/
def cexASnap : ASnap := ⟨some 0, some (11251 / 2500), some 0, some 0⟩

def cexBaseHi : ASnap := ⟨some 0, some 2, some 0, some 0⟩

def cexBaseLo : ASnap := ⟨some 0, some 0, some 0, some 0⟩

/-- C5 counterexample baseline: ten points whose `errorRate` has mean 1
and population standard deviation exactly 1. -/
def cexBase : List ASnap :=
  [cexBaseHi, cexBaseHi, cexBaseHi, cexBaseHi, cexBaseHi,
   cexBaseLo, cexBaseLo, cexBaseLo, cexBaseLo, cexBaseLo]

/-- The `errorRate` record `compute` produces on the C5 counterexample
input: severity `critical` although the rounded `z` field equals 3.5. -/
noncomputable def cexRecord : AttributionRecord :=
  ⟨"errorRate", "Error Rate", "%", false, 4.5, 1, 1, 3.5, 3.5, 350, .critical⟩

/-! ## Helper lemmas about `evaluate` -/

theorem chosenSev_none {c : ℕ} {score : ℤ} (h1 : score < 72) (h2 : c < 3) :
    chosenSev c score = none := by
  simp only [chosenSev, THRESHOLDS.EMERGENCY, THRESHOLDS.CRITICAL, THRESHOLDS.WARNING]
  split_ifs with h3 h4 h5
  · exact absurd h3 (by omega)
  · exact absurd h4 (by omega)
  · exact absurd h5 (by omega)
  · rfl

theorem chosenSev_warning {c : ℕ} {score : ℤ} (h1 : score < 72) (h2 : 3 ≤ c) :
    chosenSev c score = some .WARNING := by
  simp only [chosenSev, THRESHOLDS.EMERGENCY, THRESHOLDS.CRITICAL, THRESHOLDS.WARNING]
  split_ifs with h3 h4
  · exact absurd h3 (by omega)
  · exact absurd h4 (by omega)
  · rfl

theorem evaluate_none {env : AlertEnv} {score : ℤ} {attr : List AttrEntry} {dep : String}
    {s : AlertState}
    (h : chosenSev (nextConsecutive s.consecutiveHigh score) score = none) :
    evaluate env score attr dep s =
      (none, { s with consecutiveHigh := nextConsecutive s.consecutiveHigh score }) := by
  simp only [evaluate, h]

theorem evaluate_suppress {env : AlertEnv} {score : ℤ} {attr : List AttrEntry} {dep : String}
    {s : AlertState} {v : Sev}
    (hsev : chosenSev (nextConsecutive s.consecutiveHigh score) score = some v)
    (ha : v ∈ s.sevHistory) (hd : score - s.lastFiredScore < 10) :
    evaluate env score attr dep s =
      (none, { s with consecutiveHigh := nextConsecutive s.consecutiveHigh score }) := by
  simp only [evaluate, hsev]
  rw [if_pos (by simp [List.contains, List.elem_iff, ha, hd])]

theorem evaluate_fire {env : AlertEnv} {score : ℤ} {attr : List AttrEntry} {dep : String}
    {s : AlertState} {v : Sev}
    (hsev : chosenSev (nextConsecutive s.consecutiveHigh score) score = some v)
    (hgate : v ∉ s.sevHistory ∨ 10 ≤ score - s.lastFiredScore) :
    evaluate env score attr dep s =
      (some (mkAlert env score attr dep v),
        { consecutiveHigh := nextConsecutive s.consecutiveHigh score
          lastFiredScore := score
          lastFiredSev := some v
          activeAlerts := mkAlert env score attr dep v :: s.activeAlerts
          sevHistory := sevAdd s.sevHistory v }) := by
  simp only [evaluate, hsev]
  rw [if_neg]
  simp only [List.contains, List.elem_eq_mem, Bool.and_eq_true, decide_eq_true_eq, not_and]
  intro hmem
  rcases hgate with h | h
  · exact absurd hmem h
  · omega

theorem runEval_cons (env : AlertEnv) (dep : String) (attr : List AttrEntry) (sc : ℤ)
    (rest : List ℤ) (s : AlertState) :
    runEval env dep attr (sc :: rest) s =
      ((evaluate env sc attr dep s).1 ::
        (runEval env dep attr rest (evaluate env sc attr dep s).2).1,
       (runEval env dep attr rest (evaluate env sc attr dep s).2).2) := rfl

/-! ## Claim C9 -/

/-- C9: whenever `AlertEngine.evaluate` returns `null`, every piece of engine
state except the consecutive-high counter is unchanged — the alert log, the
last-fired score, the last-fired severity and the set of severities already
fired this session are exactly as before the call. -/
theorem alert_evaluate_none_frame (env : AlertEnv) (score : ℤ) (attr : List AttrEntry)
    (dep : String) (s : AlertState) (h : (evaluate env score attr dep s).1 = none) :
    (evaluate env score attr dep s).2.activeAlerts = s.activeAlerts ∧
    (evaluate env score attr dep s).2.lastFiredScore = s.lastFiredScore ∧
    (evaluate env score attr dep s).2.lastFiredSev = s.lastFiredSev ∧
    (evaluate env score attr dep s).2.sevHistory = s.sevHistory := by
  rcases hs : chosenSev (nextConsecutive s.consecutiveHigh score) score with _ | v
  · rw [evaluate_none hs]
    exact ⟨rfl, rfl, rfl, rfl⟩
  · by_cases ha : v ∈ s.sevHistory
    · by_cases hd : score - s.lastFiredScore < 10
      · rw [evaluate_suppress hs ha hd]
        exact ⟨rfl, rfl, rfl, rfl⟩
      · rw [evaluate_fire hs (Or.inr (by omega))] at h
        simp at h
    · rw [evaluate_fire hs (Or.inl ha)] at h
      simp at h

/-- Witness for C9 at a concrete no-alert call. -/
theorem alert_evaluate_none_frame_witness :
    (evaluate cenv 0 [] "d" AlertState.reset).2.activeAlerts = AlertState.reset.activeAlerts ∧
    (evaluate cenv 0 [] "d" AlertState.reset).2.lastFiredScore = AlertState.reset.lastFiredScore ∧
    (evaluate cenv 0 [] "d" AlertState.reset).2.lastFiredSev = AlertState.reset.lastFiredSev ∧
    (evaluate cenv 0 [] "d" AlertState.reset).2.sevHistory = AlertState.reset.sevHistory :=
  alert_evaluate_none_frame cenv 0 [] "d" AlertState.reset rfl

/-! ## Claim C3 -/

/-- C3: from freshly reset state, two consecutive evaluations with score in
[50, 72) followed by one below 50 never produce a WARNING alert; three
consecutive evaluations in [50, 72) produce exactly one WARNING alert, fired
on the third evaluation; and the consecutive counter increments on every
score ≥ 50 and resets to 0 on every score < 50, regardless of which tier
fires. -/
theorem alert_warning_consecutive_gate :
    (∀ (env : AlertEnv) (dep : String) (attr : List AttrEntry) (s1 s2 s3 : ℤ),
      50 ≤ s1 → s1 < 72 → 50 ≤ s2 → s2 < 72 → s3 < 50 →
      ∀ o ∈ (runEval env dep attr [s1, s2, s3] AlertState.reset).1, ∀ a, o = some a →
        a.sev ≠ Sev.WARNING)
  ∧ (∀ (env : AlertEnv) (dep : String) (attr : List AttrEntry) (s1 s2 s3 : ℤ),
      50 ≤ s1 → s1 < 72 → 50 ≤ s2 → s2 < 72 → 50 ≤ s3 → s3 < 72 →
      ∃ a, (runEval env dep attr [s1, s2, s3] AlertState.reset).1 = [none, none, some a] ∧
        a.sev = Sev.WARNING)
  ∧ (∀ (env : AlertEnv) (score : ℤ) (attr : List AttrEntry) (dep : String) (s : AlertState),
      ((evaluate env score attr dep s).2).consecutiveHigh =
        if 50 ≤ score then s.consecutiveHigh + 1 else 0) := by
  refine ⟨?_, ?_, ?_⟩
  · intro env dep attr s1 s2 s3 h1 h2 h3 h4 h5 o ho a hoa
    have e1 : evaluate env s1 attr dep AlertState.reset = (none, ⟨1, 0, none, [], []⟩) := by
      have hn : nextConsecutive AlertState.reset.consecutiveHigh s1 = 1 := by
        simp [nextConsecutive, AlertState.reset, THRESHOLDS.WARNING, h1]
      rw [evaluate_none (by rw [hn]; exact chosenSev_none h2 (by omega))]
      rw [hn]
      simp [AlertState.reset]
    have e2 : evaluate env s2 attr dep ⟨1, 0, none, [], []⟩ = (none, ⟨2, 0, none, [], []⟩) := by
      have hn : nextConsecutive (⟨1, 0, none, [], []⟩ : AlertState).consecutiveHigh s2 = 2 := by
        simp [nextConsecutive, THRESHOLDS.WARNING, h3]
      rw [evaluate_none (by rw [hn]; exact chosenSev_none h4 (by omega))]
      rw [hn]
    have e3 : evaluate env s3 attr dep ⟨2, 0, none, [], []⟩ = (none, ⟨0, 0, none, [], []⟩) := by
      have hn : nextConsecutive (⟨2, 0, none, [], []⟩ : AlertState).consecutiveHigh s3 = 0 := by
        simp [nextConsecutive, THRESHOLDS.WARNING]
        omega
      rw [evaluate_none (by rw [hn]; exact chosenSev_none (by omega) (by omega))]
      rw [hn]
    rw [runEval_cons, e1] at ho
    simp only [runEval_cons, runEval, e2, e3] at ho
    simp only [List.mem_cons, List.not_mem_nil, or_false] at ho
    rcases ho with ho | ho | ho <;> rw [ho] at hoa <;> cases hoa
  · intro env dep attr s1 s2 s3 h1 h2 h3 h4 h5 h6
    have e1 : evaluate env s1 attr dep AlertState.reset = (none, ⟨1, 0, none, [], []⟩) := by
      have hn : nextConsecutive AlertState.reset.consecutiveHigh s1 = 1 := by
        simp [nextConsecutive, AlertState.reset, THRESHOLDS.WARNING, h1]
      rw [evaluate_none (by rw [hn]; exact chosenSev_none h2 (by omega))]
      rw [hn]
      simp [AlertState.reset]
    have e2 : evaluate env s2 attr dep ⟨1, 0, none, [], []⟩ = (none, ⟨2, 0, none, [], []⟩) := by
      have hn : nextConsecutive (⟨1, 0, none, [], []⟩ : AlertState).consecutiveHigh s2 = 2 := by
        simp [nextConsecutive, THRESHOLDS.WARNING, h3]
      rw [evaluate_none (by rw [hn]; exact chosenSev_none h4 (by omega))]
      rw [hn]
    have hn3 : nextConsecutive (⟨2, 0, none, [], []⟩ : AlertState).consecutiveHigh s3 = 3 := by
      simp [nextConsecutive, THRESHOLDS.WARNING, h5]
    have e3 : evaluate env s3 attr dep ⟨2, 0, none, [], []⟩ =
        (some (mkAlert env s3 attr dep .WARNING),
         ⟨3, s3, some .WARNING, [mkAlert env s3 attr dep .WARNING], sevAdd [] .WARNING⟩) := by
      rw [evaluate_fire (by rw [hn3]; exact chosenSev_warning h6 (by omega))
        (Or.inl (by simp))]
      rw [hn3]
    refine ⟨mkAlert env s3 attr dep .WARNING, ?_, rfl⟩
    simp only [runEval_cons, runEval, e1, e2, e3]
  · intro env score attr dep s
    rcases hs : chosenSev (nextConsecutive s.consecutiveHigh score) score with _ | v
    · rw [evaluate_none hs]
      simp [nextConsecutive, THRESHOLDS.WARNING]
    · by_cases ha : v ∈ s.sevHistory
      · by_cases hd : score - s.lastFiredScore < 10
        · rw [evaluate_suppress hs ha hd]
          simp [nextConsecutive, THRESHOLDS.WARNING]
        · rw [evaluate_fire hs (Or.inr (by omega))]
          simp [nextConsecutive, THRESHOLDS.WARNING]
      · rw [evaluate_fire hs (Or.inl ha)]
        simp [nextConsecutive, THRESHOLDS.WARNING]

/-- Witness for C3 at a concrete three-tick run of in-range scores. -/
theorem alert_warning_consecutive_gate_witness :
    ∃ a, (runEval cenv "d" [] [55, 60, 51] AlertState.reset).1 = [none, none, some a] ∧
      a.sev = Sev.WARNING :=
  alert_warning_consecutive_gate.2.1 cenv "d" [] 55 60 51 (by decide) (by decide)
    (by decide) (by decide) (by decide) (by decide)

/-! ## Claim C1 -/

/-- C1 counterexample: on the score sequence 72, 55, 55, 72 from reset,
CRITICAL fires at the 1st call (score 72), WARNING fires at the 3rd call
(score 55, updating the shared last-fired score), and the 4th call fires
CRITICAL again at score 72 — although 72 is not ≥ 10 points above 72, the
score at which CRITICAL itself last fired. The gate actually compares with
the score of the most recent alert of any severity (55 here). -/
theorem alert_hysteresis_same_sev_cex :
    ((runEval cenv "d" [] [72, 55, 55, 72] AlertState.reset).1.map (Option.map Alert.sev) =
      [some Sev.CRITICAL, none, some Sev.WARNING, some Sev.CRITICAL])
  ∧ ((runEval cenv "d" [] [72, 55, 55, 72] AlertState.reset).1.map (Option.map Alert.score) =
      [some 72, none, some 55, some 72])
  ∧ ¬ ((72 : ℤ) + 10 ≤ 72) :=
  ⟨rfl, rfl, by decide⟩

/-- C1 (amended): the hysteresis gate compares the current score with the
score at which the most recent alert of any severity fired
(`lastFiredScore`), not with a per-severity score: an already-fired
severity re-fires exactly when the current score is ≥ 10 above
`lastFiredScore`, and a severity that has not yet fired this session is
never suppressed. -/
theorem alert_hysteresis_global_gate (env : AlertEnv) (score : ℤ) (attr : List AttrEntry)
    (dep : String) (s : AlertState) :
    (∀ a, (evaluate env score attr dep s).1 = some a → a.sev ∈ s.sevHistory →
      s.lastFiredScore + 10 ≤ score)
  ∧ (∀ v, chosenSev (nextConsecutive s.consecutiveHigh score) score = some v →
      v ∉ s.sevHistory → (evaluate env score attr dep s).1 = some (mkAlert env score attr dep v))
  ∧ (∀ v, chosenSev (nextConsecutive s.consecutiveHigh score) score = some v →
      v ∈ s.sevHistory → s.lastFiredScore + 10 ≤ score →
      (evaluate env score attr dep s).1 = some (mkAlert env score attr dep v)) := by
  refine ⟨?_, ?_, ?_⟩
  · intro a hfire hmem
    rcases hs : chosenSev (nextConsecutive s.consecutiveHigh score) score with _ | v
    · rw [evaluate_none hs] at hfire
      cases hfire
    · by_cases ha : v ∈ s.sevHistory
      · by_cases hd : score - s.lastFiredScore < 10
        · rw [evaluate_suppress hs ha hd] at hfire
          cases hfire
        · omega
      · rw [evaluate_fire hs (Or.inl ha)] at hfire
        have hsev : a.sev = v := by
          cases hfire
          rfl
        rw [hsev] at hmem
        exact absurd hmem ha
  · intro v hs hnm
    rw [evaluate_fire hs (Or.inl hnm)]
  · intro v hs hm hd
    rw [evaluate_fire hs (Or.inr (by omega))]

/-- Witness for the amended C1 at a concrete first-fire call. -/
theorem alert_hysteresis_global_gate_witness :
    (evaluate cenv 72 [] "d" AlertState.reset).1 = some (mkAlert cenv 72 [] "d" Sev.CRITICAL) :=
  (alert_hysteresis_global_gate cenv 72 [] "d" AlertState.reset).2.1 Sev.CRITICAL
    (by decide) (by simp [AlertState.reset])

/-! ## Claim C10 -/

/-- C10: called with an empty attribution list, `evaluate` still returns a
well-formed alert whenever a severity qualifies and passes hysteresis:
primary driver "Unknown", primary key "", pct 0, Z 0, an empty top-3
attribution snapshot, and the message built from these fallback values. -/
theorem alert_empty_attribution_fallback (env : AlertEnv) (score : ℤ) (dep : String)
    (s : AlertState) (v : Sev)
    (hsev : chosenSev (nextConsecutive s.consecutiveHigh score) score = some v)
    (hgate : v ∈ s.sevHistory → s.lastFiredScore + 10 ≤ score) :
    ∃ a, (evaluate env score [] dep s).1 = some a ∧ a.sev = v ∧ a.score = score ∧
      a.primaryDriver = "Unknown" ∧ a.primaryKey = "" ∧ a.pct = 0 ∧ a.z = 0 ∧
      a.attribution = [] ∧ a.message = buildMessage v score none := by
  refine ⟨mkAlert env score [] dep v, ?_, rfl, rfl, rfl, rfl, rfl, rfl, rfl, rfl⟩
  by_cases hm : v ∈ s.sevHistory
  · rw [evaluate_fire hsev (Or.inr (by have := hgate hm; omega))]
  · rw [evaluate_fire hsev (Or.inl hm)]

/-- Witness for C10 at a concrete qualifying call with empty attribution. -/
theorem alert_empty_attribution_fallback_witness :
    ∃ a, (evaluate cenv 90 [] "d" AlertState.reset).1 = some a ∧ a.sev = Sev.EMERGENCY ∧
      a.score = 90 ∧ a.primaryDriver = "Unknown" ∧ a.primaryKey = "" ∧ a.pct = 0 ∧ a.z = 0 ∧
      a.attribution = [] ∧ a.message = buildMessage Sev.EMERGENCY 90 none :=
  alert_empty_attribution_fallback cenv 90 "d" AlertState.reset Sev.EMERGENCY (by decide)
    (fun h => absurd h (by simp [AlertState.reset]))

/-! ## Helper lemmas about the isolation forest -/

theorem isoC_nonneg (n : ℕ) : 0 ≤ IsoTree.c n := by
  unfold IsoTree.c
  split_ifs with h1 h2
  · exact le_refl 0
  · exact zero_le_one
  · have h3 : 3 ≤ n := by omega
    have hcast : (2 : ℝ) ≤ (n : ℝ) - 1 := by
      have : (3 : ℝ) ≤ (n : ℝ) := by exact_mod_cast h3
      linarith
    have hlog : Real.log 2 ≤ Real.log ((n : ℝ) - 1) :=
      Real.log_le_log (by norm_num) hcast
    have hlog2 : (0.6931471803 : ℝ) < Real.log 2 := Real.log_two_gt_d9
    have hnpos : (0 : ℝ) < (n : ℝ) := by
      exact_mod_cast Nat.pos_of_ne_zero (by omega)
    have hfrac : 2 * ((n : ℝ) - 1) / (n : ℝ) ≤ 2 := by
      rw [div_le_iff₀ hnpos]
      nlinarith
    nlinarith

theorem pathLength_nonneg (t : IsoNode) (p : MSnap) : ∀ d : ℝ, 0 ≤ d → 0 ≤ pathLength t p d := by
  induction t with
  | leaf size =>
    intro d hd
    simpa [pathLength] using add_nonneg hd (isoC_nonneg size)
  | node f split l r ihl ihr =>
    intro d hd
    simp only [pathLength]
    split_ifs
    · exact ihl (d + 1) (by linarith)
    · exact ihr (d + 1) (by linarith)

theorem isoC_pos {n : ℕ} (h3 : 3 ≤ n) : 0 < IsoTree.c n := by
  unfold IsoTree.c
  rw [if_neg (by omega), if_neg (by omega)]
  have hcast : (2 : ℝ) ≤ (n : ℝ) - 1 := by
    have : (3 : ℝ) ≤ (n : ℝ) := by exact_mod_cast h3
    linarith
  have hlog : Real.log 2 ≤ Real.log ((n : ℝ) - 1) := Real.log_le_log (by norm_num) hcast
  have hlog2 : (0.6931471803 : ℝ) < Real.log 2 := Real.log_two_gt_d9
  have hnpos : (0 : ℝ) < (n : ℝ) := by
    exact_mod_cast Nat.pos_of_ne_zero (by omega)
  have hfrac : 2 * ((n : ℝ) - 1) / (n : ℝ) < 2 := by
    rw [div_lt_iff₀ hnpos]
    nlinarith
  nlinarith

/-! ## Claim C6 -/

/-- C6: `train` returns false and leaves the forest untrained whenever the
baseline set has fewer than 10 points; `score` returns exactly 0.5 for
every point while untrained; once trained (with the engine's configuration
of 80 trees and subsample size 128), `score` lies in [0, 1] for every
fully populated numeric snapshot. -/
theorem forest_train_score_contract :
    (∀ (f : IsolationForest) (data : List MSnap) (ts : List IsoNode),
      data.length < 10 → f.train data ts = (false, f))
  ∧ (∀ (f : IsolationForest) (p : MSnap), f.trained = false → f.score p = 0.5)
  ∧ (∀ (data : List MSnap) (ts : List IsoNode) (p : MSnap), 10 ≤ data.length →
      0 ≤ (((IsolationForest.init 80 128).train data ts).2.score p) ∧
        (((IsolationForest.init 80 128).train data ts).2.score p) ≤ 1) := by
  refine ⟨?_, ?_, ?_⟩
  · intro f data ts h
    simp [IsolationForest.train, h]
  · intro f p h
    simp [IsolationForest.score, h]
  · intro data ts p h
    have htr : ((IsolationForest.init 80 128).train data ts).2 =
        ⟨80, 128, true, ts⟩ := by
      simp [IsolationForest.train, IsolationForest.init, show ¬(data.length < 10) by omega]
    rw [htr]
    have hsum : 0 ≤ ((ts.map fun t => pathLength t p 0).sum) := by
      apply List.sum_nonneg
      intro x hx
      obtain ⟨t, _, rfl⟩ := List.mem_map.mp hx
      exact pathLength_nonneg t p 0 le_rfl
    have hc : 0 < IsoTree.c 128 := isoC_pos (by omega)
    have hscore : (⟨80, 128, true, ts⟩ : IsolationForest).score p =
        (2 : ℝ) ^ (-(((ts.map fun t => pathLength t p 0).sum) / ((80 : ℕ) : ℝ)) /
          IsoTree.c 128) := by
      simp [IsolationForest.score]
    rw [hscore]
    have hexp : (-(((ts.map fun t => pathLength t p 0).sum) / ((80 : ℕ) : ℝ)) /
        IsoTree.c 128) ≤ 0 := by
      apply div_nonpos_of_nonpos_of_nonneg _ hc.le
      simp only [neg_nonpos]
      positivity
    exact ⟨(Real.rpow_nonneg (by norm_num) _), Real.rpow_le_one_of_one_le_of_nonpos
      (by norm_num) hexp⟩

/-- Witness for C6 at concrete short/long baselines and a concrete point. -/
theorem forest_train_score_contract_witness :
    ((IsolationForest.init 80 128).train (List.replicate 9 ⟨0, 0, 0, 0⟩) [] =
      (false, IsolationForest.init 80 128))
  ∧ ((IsolationForest.init 80 128).score ⟨0, 0, 0, 0⟩ = 0.5)
  ∧ (0 ≤ (((IsolationForest.init 80 128).train (List.replicate 10 ⟨0, 0, 0, 0⟩)
        [.leaf 0]).2.score ⟨0, 0, 0, 0⟩) ∧
      (((IsolationForest.init 80 128).train (List.replicate 10 ⟨0, 0, 0, 0⟩)
        [.leaf 0]).2.score ⟨0, 0, 0, 0⟩) ≤ 1) :=
  ⟨forest_train_score_contract.1 _ _ _ (by simp),
   forest_train_score_contract.2.1 _ _ rfl,
   forest_train_score_contract.2.2 _ _ _ (by simp)⟩

/-! ## Claim C7 -/

theorem ewmaIter_sub (alpha sc e0 : ℝ) (n : ℕ) :
    ewmaIter alpha sc e0 n - sc = (1 - alpha) ^ n * (e0 - sc) := by
  induction n with
  | zero => simp [ewmaIter]
  | succ n ih =>
    have : ewmaIter alpha sc e0 (n + 1) - sc = (1 - alpha) * (ewmaIter alpha sc e0 n - sc) := by
      simp only [ewmaIter]
      ring
    rw [this, ih, pow_succ]
    ring

/-- C7: the EWMA update is `0.32 * forestScore + 0.68 * ewma_prev` with the
EWMA initialised to 0.5 at session start, and for every constant forest
score in [0, 1] and every starting value, iterating the update converges
the EWMA to that score: for every positive ε there is an N past which the
distance stays below ε. -/
theorem ewma_update_and_convergence :
    ScoringEngine.reset.ewma = 0.5
  ∧ ScoringEngine.reset.alpha = 0.32
  ∧ (∀ sc e : ℝ, ewmaIter ScoringEngine.reset.alpha sc e 1 = 0.32 * sc + 0.68 * e)
  ∧ (∀ sc e0 : ℝ, 0 ≤ sc → sc ≤ 1 → ∀ ε : ℝ, 0 < ε →
      ∃ N, ∀ n, N ≤ n → |ewmaIter ScoringEngine.reset.alpha sc e0 n - sc| < ε) := by
  have halpha : ScoringEngine.reset.alpha = 0.32 := rfl
  refine ⟨rfl, rfl, ?_, ?_⟩
  · intro sc e
    simp only [ewmaIter, halpha]
    norm_num
  · intro sc e0 _ _ ε hε
    set D : ℝ := |e0 - sc| with hD
    have hD0 : 0 ≤ D := abs_nonneg _
    have hD1 : (0 : ℝ) < D + 1 := by linarith
    obtain ⟨N, hN⟩ := exists_pow_lt_of_lt_one (x := ε / (D + 1)) (y := (0.68 : ℝ))
      (div_pos hε hD1) (by norm_num)
    refine ⟨N, fun n hn => ?_⟩
    have habs : |ewmaIter ScoringEngine.reset.alpha sc e0 n - sc| = (0.68 : ℝ) ^ n * D := by
      rw [ewmaIter_sub, halpha, abs_mul, abs_pow,
        abs_of_nonneg (by norm_num : (0 : ℝ) ≤ 1 - 0.32)]
      norm_num
    rw [habs]
    have hmono : (0.68 : ℝ) ^ n ≤ (0.68 : ℝ) ^ N :=
      pow_le_pow_of_le_one (by norm_num) (by norm_num) hn
    have hpos : (0 : ℝ) ≤ (0.68 : ℝ) ^ n := by positivity
    calc (0.68 : ℝ) ^ n * D ≤ (0.68 : ℝ) ^ n * (D + 1) := by nlinarith
    _ ≤ (0.68 : ℝ) ^ N * (D + 1) := by nlinarith
    _ < (ε / (D + 1)) * (D + 1) := by nlinarith
    _ = ε := div_mul_cancel₀ ε (by linarith)

/-- Witness for C7 at a concrete constant score, start value and ε. -/
theorem ewma_update_and_convergence_witness :
    ∃ N, ∀ n, N ≤ n → |ewmaIter ScoringEngine.reset.alpha 1 0 n - 1| < 1 / 100 :=
  ewma_update_and_convergence.2.2.2 1 0 (by norm_num) (by norm_num) (1 / 100) (by norm_num)

/-! ## Claim C4 -/

/-- C4: with a non-null snapshot, `update` returns phase LEARNING with
progress `history.length / 12` and leaves the state untouched while
`history.length < 12`; on a call with `history.length ≥ 12` and the
engine not yet trained, the forest is trained (successfully) on the oldest
12 snapshots and the call returns phase SCORING; once trained, every later
call with sufficient history returns phase SCORING and leaves the forest
exactly as it was (training happens at most once per session). -/
theorem scoring_update_phases :
    (∀ (s : ScoringEngine) (snap : MSnap) (hist : List MSnap) (oracle : List IsoNode),
      hist.length < BASELINE_TICKS_NEEDED →
      (s.update (some snap) hist oracle).1.phase = Phase.LEARNING ∧
      (s.update (some snap) hist oracle).1.progress =
        some ((hist.length : ℚ) / (BASELINE_TICKS_NEEDED : ℚ)) ∧
      (s.update (some snap) hist oracle).2 = s)
  ∧ (∀ (s : ScoringEngine) (snap : MSnap) (hist : List MSnap) (oracle : List IsoNode),
      s.trained = false → BASELINE_TICKS_NEEDED ≤ hist.length →
      (s.IF.train (hist.take BASELINE_TICKS_NEEDED) oracle).1 = true ∧
      (s.update (some snap) hist oracle).2.IF =
        (s.IF.train (hist.take BASELINE_TICKS_NEEDED) oracle).2 ∧
      (s.update (some snap) hist oracle).2.trained = true ∧
      (s.update (some snap) hist oracle).1.phase = Phase.SCORING)
  ∧ (∀ (s : ScoringEngine) (snap : MSnap) (hist : List MSnap) (oracle : List IsoNode),
      s.trained = true → BASELINE_TICKS_NEEDED ≤ hist.length →
      (s.update (some snap) hist oracle).1.phase = Phase.SCORING ∧
      (s.update (some snap) hist oracle).2.IF = s.IF) := by
  refine ⟨?_, ?_, ?_⟩
  · intro s snap hist oracle h
    refine ⟨?_, ?_, ?_⟩ <;> simp [ScoringEngine.update, h]
  · intro s snap hist oracle hs h12
    have hlen : ¬ hist.length < BASELINE_TICKS_NEEDED := by omega
    have htake : (hist.take BASELINE_TICKS_NEEDED).length = 12 := by
      simp only [List.length_take]
      simp only [BASELINE_TICKS_NEEDED] at h12 ⊢
      omega
    have htrain : s.IF.train (hist.take BASELINE_TICKS_NEEDED) oracle =
        (true, { s.IF with trained := true, forest := oracle }) := by
      simp [IsolationForest.train, htake]
    refine ⟨by rw [htrain], ?_, ?_, ?_⟩ <;>
      simp [ScoringEngine.update, hlen, hs, htrain]
  · intro s snap hist oracle hs h12
    have hlen : ¬ hist.length < BASELINE_TICKS_NEEDED := by omega
    refine ⟨?_, ?_⟩ <;> simp [ScoringEngine.update, hlen, hs]

/-- Witness for C4: a learning call, a first training call and a
post-training call at concrete inputs. -/
theorem scoring_update_phases_witness :
    ((ScoringEngine.reset.update (some ⟨0, 0, 0, 0⟩) (List.replicate 5 ⟨0, 0, 0, 0⟩) []).1.phase =
        Phase.LEARNING ∧
      (ScoringEngine.reset.update (some ⟨0, 0, 0, 0⟩)
          (List.replicate 5 ⟨0, 0, 0, 0⟩) []).1.progress =
        some (((List.replicate 5 (⟨0, 0, 0, 0⟩ : MSnap)).length : ℚ) /
          (BASELINE_TICKS_NEEDED : ℚ)) ∧
      (ScoringEngine.reset.update (some ⟨0, 0, 0, 0⟩) (List.replicate 5 ⟨0, 0, 0, 0⟩) []).2 =
        ScoringEngine.reset)
  ∧ ((ScoringEngine.reset.IF.train
        ((List.replicate 12 (⟨0, 0, 0, 0⟩ : MSnap)).take BASELINE_TICKS_NEEDED) [.leaf 0]).1 =
      true ∧
      (ScoringEngine.reset.update (some ⟨0, 0, 0, 0⟩)
          (List.replicate 12 ⟨0, 0, 0, 0⟩) [.leaf 0]).1.phase = Phase.SCORING) :=
  ⟨scoring_update_phases.1 ScoringEngine.reset ⟨0, 0, 0, 0⟩ (List.replicate 5 ⟨0, 0, 0, 0⟩) []
      (by simp [BASELINE_TICKS_NEEDED]),
   (scoring_update_phases.2.1 ScoringEngine.reset ⟨0, 0, 0, 0⟩
      (List.replicate 12 ⟨0, 0, 0, 0⟩) [.leaf 0] rfl (by simp [BASELINE_TICKS_NEEDED])).1,
   (scoring_update_phases.2.1 ScoringEngine.reset ⟨0, 0, 0, 0⟩
      (List.replicate 12 ⟨0, 0, 0, 0⟩) [.leaf 0] rfl (by simp [BASELINE_TICKS_NEEDED])).2.2.2⟩

/-! ## Claim C2: numeric evaluation of `calibrate` -/

theorem exp_ge_pow128 (t : ℝ) (h : 0 ≤ 1 + t / 128) :
    (1 + t / 128) ^ (128 : ℕ) ≤ Real.exp t := by
  have h1 : Real.exp t = (Real.exp (t / 128)) ^ (128 : ℕ) := by
    rw [← Real.exp_nat_mul]
    ring_nf
  rw [h1]
  exact pow_le_pow_left₀ h (by have := Real.add_one_le_exp (t / 128); linarith) 128

theorem calibrate_eq_of_bounds (x : ℝ) (k : ℤ) (lo hi : ℝ)
    (hlo : lo ≤ Real.exp (-13 * (x - 0.61)))
    (hhi : Real.exp (-13 * (x - 0.61)) ≤ hi)
    (hlopos : 0 < lo)
    (hkpos : 0 ≤ (k : ℝ) - 1 / 2)
    (h1 : ((k : ℝ) - 1 / 2) * (1 + hi) ≤ 100)
    (h2 : 100 < ((k : ℝ) + 1 / 2) * (1 + lo)) :
    ScoringEngine.calibrate x = k := by
  unfold ScoringEngine.calibrate
  set E := Real.exp (-13 * (x - 0.61)) with hE
  have hEpos : (0 : ℝ) < E := by rw [hE]; exact Real.exp_pos _
  have hden : (0 : ℝ) < 1 + E := by linarith
  have hv0 : (0 : ℝ) ≤ 100 / (1 + E) := by positivity
  have hv100 : 100 / (1 + E) ≤ 100 := by
    rw [div_le_iff₀ hden]
    nlinarith
  rw [min_eq_right hv100, max_eq_right hv0, round_eq, Int.floor_eq_iff]
  constructor
  · have hstep : ((k : ℝ) - 1 / 2) * (1 + E) ≤ 100 := by nlinarith
    have hdiv : (k : ℝ) - 1 / 2 ≤ 100 / (1 + E) := by
      rw [le_div_iff₀ hden]
      exact hstep
    linarith
  · have hstep : (100 : ℝ) < ((k : ℝ) + 1 / 2) * (1 + E) := by nlinarith
    have hdiv : 100 / (1 + E) < (k : ℝ) + 1 / 2 := by
      rw [div_lt_iff₀ hden]
      exact hstep
    linarith

/-- C2: the code's calibration formula does not realise the anchor values
promised by its own doc comment and by the spec: `calibrate(0.5)` is 19
(not single digits) and `calibrate(0.7)` is 76 (not ≈ 50). This theorem
pins the exact values the code produces at the failing inputs. -/
theorem calibrate_anchor_values :
    ScoringEngine.calibrate 0.5 = 19 ∧ ScoringEngine.calibrate 0.7 = 76 := by
  have hexp2 : Real.exp 2 ≤ 7.3890561 := by
    have ha := Real.exp_one_lt_d9
    have hb : Real.exp 2 = Real.exp 1 * Real.exp 1 := by
      rw [← Real.exp_add]
      norm_num
    nlinarith [Real.exp_pos 1, sq_nonneg (Real.exp 1 - 2.7182818286)]
  constructor
  · have harg : (-13 : ℝ) * ((0.5 : ℝ) - 0.61) = 1.43 := by norm_num
    apply calibrate_eq_of_bounds 0.5 19 4.14 4.23
    · rw [harg]
      calc (4.14 : ℝ) ≤ (1 + (1.43 : ℝ) / 128) ^ (128 : ℕ) := by norm_num
      _ ≤ Real.exp 1.43 := exp_ge_pow128 1.43 (by norm_num)
    · rw [harg]
      have h057 : (1.75 : ℝ) ≤ Real.exp 0.57 :=
        le_trans (by norm_num) (exp_ge_pow128 0.57 (by norm_num))
      have hprod : Real.exp 1.43 * Real.exp 0.57 = Real.exp 2 := by
        rw [← Real.exp_add]
        norm_num
      nlinarith [Real.exp_pos (0.57 : ℝ), Real.exp_pos (1.43 : ℝ)]
    · norm_num
    · norm_num
    · norm_num
    · norm_num
  · have harg : (-13 : ℝ) * ((0.7 : ℝ) - 0.61) = -1.17 := by norm_num
    have hF_lo : (3.2 : ℝ) ≤ Real.exp 1.17 :=
      le_trans (by norm_num) (exp_ge_pow128 1.17 (by norm_num))
    have hF_hi : Real.exp 1.17 ≤ 3.231 := by
      have h083 : (2.287 : ℝ) ≤ Real.exp 0.83 :=
        le_trans (by norm_num) (exp_ge_pow128 0.83 (by norm_num))
      have hprod : Real.exp 1.17 * Real.exp 0.83 = Real.exp 2 := by
        rw [← Real.exp_add]
        norm_num
      nlinarith [Real.exp_pos (0.83 : ℝ), Real.exp_pos (1.17 : ℝ)]
    have hinv : Real.exp (-1.17 : ℝ) * Real.exp 1.17 = 1 := by
      rw [← Real.exp_add]
      norm_num
    apply calibrate_eq_of_bounds 0.7 76 0.3095 0.3125
    · rw [harg]
      nlinarith [Real.exp_pos (-1.17 : ℝ), Real.exp_pos (1.17 : ℝ)]
    · rw [harg]
      nlinarith [Real.exp_pos (-1.17 : ℝ), Real.exp_pos (1.17 : ℝ)]
    · norm_num
    · norm_num
    · norm_num
    · norm_num

/-! ## Claim C5: attribution ordering and severity tiers -/

theorem tierOf_critical_iff (v : ℝ) : tierOf v = .critical ↔ 3.5 < v := by
  unfold tierOf
  split_ifs with h1 h2 h3 <;> simp_all <;> linarith

theorem tierOf_warning_iff (v : ℝ) : tierOf v = .warning ↔ 2 < v ∧ v ≤ 3.5 := by
  unfold tierOf
  split_ifs with h1 h2 h3 <;> simp_all <;> intro h <;> linarith

theorem tierOf_elevated_iff (v : ℝ) : tierOf v = .elevated ↔ 1 < v ∧ v ≤ 2 := by
  unfold tierOf
  split_ifs with h1 h2 h3 <;> simp_all <;> intro h <;> linarith

theorem tierOf_normal_iff (v : ℝ) : tierOf v = .normal ↔ v ≤ 1 := by
  unfold tierOf
  split_ifs with h1 h2 h3 <;> simp_all <;> linarith

theorem compute_sorted (snapshot : Option ASnap) (baseline : List ASnap) :
    (AttributionEngine.compute snapshot baseline).Sorted fun a b => b.z ≤ a.z := by
  unfold AttributionEngine.compute
  match snapshot with
  | none => simp
  | some snap =>
    split_ifs with h
    · simp
    · have hp := @List.sorted_mergeSort AttributionRecord
        (fun a b : AttributionRecord => decide (b.z ≤ a.z))
        (fun a b c h1 h2 => by
          simp only [decide_eq_true_eq] at h1 h2 ⊢
          exact le_trans h2 h1)
        (fun a b => by
          simp only [Bool.or_eq_true, decide_eq_true_eq]
          exact le_total b.z a.z)
        (METRIC_META.filterMap (attrEntryFor snap baseline))
      exact hp.imp fun h => of_decide_eq_true h

theorem compute_mem {snapshot : Option ASnap} {baseline : List ASnap}
    {r : AttributionRecord} (h : r ∈ AttributionEngine.compute snapshot baseline) :
    ∃ snap, snapshot = some snap ∧ ∃ m ∈ METRIC_META, attrEntryFor snap baseline m = some r := by
  unfold AttributionEngine.compute at h
  match snapshot with
  | none => simp at h
  | some snap =>
    split_ifs at h
    · simp at h
    · rw [List.mem_mergeSort] at h
      obtain ⟨m, hm, hsome⟩ := List.mem_filterMap.mp h
      exact ⟨snap, rfl, m, hm, hsome⟩

theorem attrEntryFor_fields {snap : ASnap} {baseline : List ASnap} {m : MetricMeta}
    {r : AttributionRecord} (h : attrEntryFor snap baseline m = some r) :
    r.severity = tierOf |attrZ snap baseline m| ∧
    r.z = roundTo 3 |attrZ snap baseline m| := by
  unfold attrEntryFor at h
  split_ifs at h
  cases h
  exact ⟨rfl, rfl⟩

/-- C5 (amended): every list returned by `compute` is sorted in descending
order of the (rounded) absolute-Z field, and each record's severity tier is
determined by the unrounded |Z| of its metric — critical iff |Z| > 3.5,
warning iff 2 < |Z| ≤ 3.5, elevated iff 1 < |Z| ≤ 2, normal iff |Z| ≤ 1 —
while the stored Z field is that |Z| rounded to 3 decimals, so the stored
field can sit exactly on a boundary while the severity belongs to the tier
above. -/
theorem attribution_sorted_and_tiers (snapshot : Option ASnap) (baseline : List ASnap) :
    ((AttributionEngine.compute snapshot baseline).Sorted fun a b => b.z ≤ a.z)
  ∧ ∀ r ∈ AttributionEngine.compute snapshot baseline, ∃ snap, snapshot = some snap ∧
      ∃ m ∈ METRIC_META,
        r.z = roundTo 3 |attrZ snap baseline m| ∧
        (r.severity = .critical ↔ 3.5 < |attrZ snap baseline m|) ∧
        (r.severity = .warning ↔ 2 < |attrZ snap baseline m| ∧ |attrZ snap baseline m| ≤ 3.5) ∧
        (r.severity = .elevated ↔ 1 < |attrZ snap baseline m| ∧ |attrZ snap baseline m| ≤ 2) ∧
        (r.severity = .normal ↔ |attrZ snap baseline m| ≤ 1) := by
  refine ⟨compute_sorted snapshot baseline, ?_⟩
  intro r hr
  obtain ⟨snap, hsnap, m, hm, hentry⟩ := compute_mem hr
  obtain ⟨hsev, hz⟩ := attrEntryFor_fields hentry
  refine ⟨snap, hsnap, m, hm, hz, ?_, ?_, ?_, ?_⟩ <;> rw [hsev]
  · exact tierOf_critical_iff _
  · exact tierOf_warning_iff _
  · exact tierOf_elevated_iff _
  · exact tierOf_normal_iff _

theorem roundTo_eq {d : ℕ} {x : ℝ} {n : ℤ} (h1 : (n : ℝ) ≤ x * 10 ^ d + 1 / 2)
    (h2 : x * 10 ^ d + 1 / 2 < (n : ℝ) + 1) : roundTo d x = (n : ℝ) / 10 ^ d := by
  unfold roundTo
  rw [round_eq]
  have hfl : ⌊x * 10 ^ d + 1 / 2⌋ = n := Int.floor_eq_iff.mpr ⟨h1, by push_cast; linarith⟩
  rw [hfl]

theorem cexMeta_mem : (⟨"errorRate", "Error Rate", "%", false⟩ : MetricMeta) ∈ METRIC_META := by
  simp [METRIC_META]

theorem cexRecord_entry :
    attrEntryFor cexASnap cexBase ⟨"errorRate", "Error Rate", "%", false⟩ = some cexRecord := by
  have hget : ∀ s : ASnap, ASnap.get s "errorRate" = s.errorRate := by
    intro s
    unfold ASnap.get
    rw [if_neg (by decide), if_pos rfl]
  have hcq : attrCur cexASnap ⟨"errorRate", "Error Rate", "%", false⟩ = 11251 / 2500 := by
    unfold attrCur
    simp [hget, cexASnap]
  have hv : attrVals cexBase ⟨"errorRate", "Error Rate", "%", false⟩ =
      [2, 2, 2, 2, 2, 0, 0, 0, 0, 0] := by
    unfold attrVals
    simp [hget, cexBase, cexBaseHi, cexBaseLo]
  have hmq : attrMean cexBase ⟨"errorRate", "Error Rate", "%", false⟩ = 1 := by
    unfold attrMean
    rw [hv]
    norm_num
  have hvq : attrVariance cexBase ⟨"errorRate", "Error Rate", "%", false⟩ = 1 := by
    unfold attrVariance
    rw [hv, hmq]
    norm_num
  have hpq : attrPct cexASnap cexBase ⟨"errorRate", "Error Rate", "%", false⟩ = 8751 / 25 := by
    unfold attrPct
    rw [hcq, hmq]
    norm_num [jsOrQ]
  have hstd : attrStd cexBase ⟨"errorRate", "Error Rate", "%", false⟩ = 1 := by
    unfold attrStd
    rw [hvq]
    simp only [Rat.cast_one, Real.sqrt_one]
    unfold jsOrR
    rw [if_neg one_ne_zero]
  have hraw : attrRawZ cexASnap cexBase ⟨"errorRate", "Error Rate", "%", false⟩ = 3.5004 := by
    unfold attrRawZ
    rw [hcq, hmq, hstd]
    push_cast
    norm_num
  have hzv : attrZ cexASnap cexBase ⟨"errorRate", "Error Rate", "%", false⟩ = 3.5004 := by
    unfold attrZ
    rw [hraw]
    norm_num
  have habs : |attrZ cexASnap cexBase ⟨"errorRate", "Error Rate", "%", false⟩| = 3.5004 := by
    rw [hzv, abs_of_nonneg (by norm_num)]
  unfold attrEntryFor
  rw [if_neg (by decide)]
  rw [Option.some.injEq]
  unfold cexRecord
  rw [AttributionRecord.mk.injEq]
  refine ⟨rfl, rfl, rfl, rfl, ?_, ?_, ?_, ?_, ?_, ?_, ?_⟩
  · rw [hcq, roundTo_eq (n := 450) (by push_cast; norm_num) (by push_cast; norm_num)]
    norm_num
  · rw [hmq, roundTo_eq (n := 100) (by push_cast; norm_num) (by push_cast; norm_num)]
    norm_num
  · rw [hstd, roundTo_eq (n := 100) (by push_cast; norm_num) (by push_cast; norm_num)]
    norm_num
  · rw [habs, roundTo_eq (n := 3500) (by push_cast; norm_num) (by push_cast; norm_num)]
    norm_num
  · rw [hraw, roundTo_eq (n := 3500) (by push_cast; norm_num) (by push_cast; norm_num)]
    norm_num
  · rw [hpq, roundTo_eq (n := 3500) (by push_cast; norm_num) (by push_cast; norm_num)]
    norm_num
  · rw [habs]
    unfold tierOf
    rw [if_pos (by norm_num)]

theorem cexRecord_mem : cexRecord ∈ AttributionEngine.compute (some cexASnap) cexBase := by
  show cexRecord ∈ (if cexBase.length < 10 then [] else
    (METRIC_META.filterMap (attrEntryFor cexASnap cexBase)).mergeSort
      fun a b => decide (b.z ≤ a.z))
  rw [if_neg (by decide)]
  rw [List.mem_mergeSort]
  exact List.mem_filterMap.mpr ⟨_, cexMeta_mem, cexRecord_entry⟩

/-- C5 counterexample: on a concrete snapshot whose `errorRate` sits
3.5004 baseline standard deviations above its mean, `compute` returns a
record whose severity is `critical` although its (3-decimal rounded) `z`
field equals exactly 3.5 — so "severity = critical iff the record's
absolute-Z field exceeds 3.5" is false as stated. -/
theorem attribution_severity_field_cex :
    cexRecord ∈ AttributionEngine.compute (some cexASnap) cexBase
  ∧ cexRecord.severity = SevTier.critical
  ∧ ¬ (3.5 < cexRecord.z) :=
  ⟨cexRecord_mem, rfl, by norm_num [cexRecord]⟩

/-- Witness for the amended C5 at the concrete counterexample input. -/
theorem attribution_sorted_and_tiers_witness :
    ∃ snap, (some cexASnap) = some snap ∧ ∃ m ∈ METRIC_META,
      cexRecord.z = roundTo 3 |attrZ snap cexBase m| ∧
      (cexRecord.severity = .critical ↔ 3.5 < |attrZ snap cexBase m|) ∧
      (cexRecord.severity = .warning ↔
        2 < |attrZ snap cexBase m| ∧ |attrZ snap cexBase m| ≤ 3.5) ∧
      (cexRecord.severity = .elevated ↔
        1 < |attrZ snap cexBase m| ∧ |attrZ snap cexBase m| ≤ 2) ∧
      (cexRecord.severity = .normal ↔ |attrZ snap cexBase m| ≤ 1) :=
  (attribution_sorted_and_tiers (some cexASnap) cexBase).2 cexRecord cexRecord_mem

/-! ## Claim C8: the trend rule -/

/-- C8 (amended): in the SCORING phase `update` returns the trend computed
by `_computeTrend` on the updated score ring buffer, and — provided the
buffer holds at least 3 scores — that trend is `rising` exactly when the
mean of the last 6 buffered scores exceeds the oldest of those 6 by more
than 8, `falling` exactly when that mean is below the oldest by more than
8, and `stable` otherwise; with fewer than 3 buffered scores the trend is
always `stable`, even when the mean rule would say otherwise. -/
theorem scoring_trend_rule :
    (∀ (s : ScoringEngine) (snap : MSnap) (hist : List MSnap) (oracle : List IsoNode),
      s.trained = true → BASELINE_TICKS_NEEDED ≤ hist.length →
      (s.update (some snap) hist oracle).1.trend =
        some (computeTrend (s.update (some snap) hist oracle).2.scoreHistory))
  ∧ (∀ l : List ℤ, 3 ≤ l.length →
      (computeTrend l = .rising ↔ 8 < trendAvg l - trendPrev l)
    ∧ (computeTrend l = .falling ↔ trendAvg l - trendPrev l < -8)
    ∧ (computeTrend l = .stable ↔
        -8 ≤ trendAvg l - trendPrev l ∧ trendAvg l - trendPrev l ≤ 8))
  ∧ (∀ l : List ℤ, l.length < 3 → computeTrend l = .stable) := by
  refine ⟨?_, ?_, ?_⟩
  · intro s snap hist oracle hs hlen
    have hlen' : ¬ hist.length < BASELINE_TICKS_NEEDED := by omega
    simp [ScoringEngine.update, hs, hlen']
  · intro l hl
    unfold computeTrend
    rw [if_neg (by omega)]
    simp only []
    refine ⟨?_, ?_, ?_⟩ <;> split_ifs with h1 h2 <;> simp_all <;>
      first
        | linarith
        | (intro h; linarith)
        | (constructor <;> linarith)
  · intro l hl
    unfold computeTrend
    rw [if_pos hl]

/-- Witness for the amended C8 at a concrete trained state and buffer. -/
theorem scoring_trend_rule_witness :
    ((⟨⟨80, 128, true, []⟩, 0.5, 0.32, true, 0, []⟩ : ScoringEngine).update
        (some ⟨0, 0, 0, 0⟩) (List.replicate 12 ⟨0, 0, 0, 0⟩) []).1.trend =
      some (computeTrend (((⟨⟨80, 128, true, []⟩, 0.5, 0.32, true, 0, []⟩ :
        ScoringEngine).update
          (some ⟨0, 0, 0, 0⟩) (List.replicate 12 ⟨0, 0, 0, 0⟩) []).2.scoreHistory))
  ∧ (computeTrend [0, 20, 30] = .rising ↔
      8 < trendAvg [0, 20, 30] - trendPrev [0, 20, 30]) :=
  ⟨scoring_trend_rule.1 _ _ _ _ rfl (by simp [BASELINE_TICKS_NEEDED]),
   (scoring_trend_rule.2.1 [0, 20, 30] (by simp)).1⟩

/-! ## Claim C8 counterexample: a genuinely reachable 2-score buffer -/

theorem clog_two_128 : Nat.clog 2 128 = 7 := by
  rw [show (128 : ℕ) = 2 ^ 7 by norm_num]
  exact Nat.clog_pow 2 7 (by norm_num)

theorem cexTree_buildable : BuildR cexHist12 7 0 cexTree := by
  have e0 : cexHist12.filter (fun x => decide (x.get .errorRate < 50)) =
      [normalPt 1, normalPt 2, normalPt 3, normalPt 4, normalPt 5, normalPt 6,
       normalPt 7, normalPt 8, normalPt 9, normalPt 10, normalPt 11] := by decide
  have e0r : cexHist12.filter (fun x => decide (¬(x.get .errorRate < 50))) = [spikePt] := by
    decide
  unfold cexTree
  refine BuildR.node _ _ _ _ 0 100 50 _ _ (by decide) (by decide) (by decide) (by decide)
    (by decide) (by decide) (by decide) ?_ ?_
  · rw [e0]
    refine BuildR.node _ _ _ _ 1 11 2 _ _ (by decide) (by decide) (by decide) (by decide)
      (by decide) (by decide) (by decide) ?_ ?_
    · rw [show ([normalPt 1, normalPt 2, normalPt 3, normalPt 4, normalPt 5, normalPt 6,
          normalPt 7, normalPt 8, normalPt 9, normalPt 10,
          normalPt 11].filter fun x => decide (x.get .p99 < 2)) = [normalPt 1] from by decide]
      exact BuildR.leaf _ _ _ (Or.inr (by decide))
    · rw [show ([normalPt 1, normalPt 2, normalPt 3, normalPt 4, normalPt 5, normalPt 6,
          normalPt 7, normalPt 8, normalPt 9, normalPt 10,
          normalPt 11].filter fun x => decide (¬(x.get .p99 < 2))) =
          [normalPt 2, normalPt 3, normalPt 4, normalPt 5, normalPt 6, normalPt 7,
           normalPt 8, normalPt 9, normalPt 10, normalPt 11] from by decide]
      refine BuildR.node _ _ _ _ 2 11 3 _ _ (by decide) (by decide) (by decide) (by decide)
        (by decide) (by decide) (by decide) ?_ ?_
      · rw [show ([normalPt 2, normalPt 3, normalPt 4, normalPt 5, normalPt 6, normalPt 7,
            normalPt 8, normalPt 9, normalPt 10,
            normalPt 11].filter fun x => decide (x.get .p99 < 3)) = [normalPt 2] from by decide]
        exact BuildR.leaf _ _ _ (Or.inr (by decide))
      · rw [show ([normalPt 2, normalPt 3, normalPt 4, normalPt 5, normalPt 6, normalPt 7,
            normalPt 8, normalPt 9, normalPt 10,
            normalPt 11].filter fun x => decide (¬(x.get .p99 < 3))) =
            [normalPt 3, normalPt 4, normalPt 5, normalPt 6, normalPt 7, normalPt 8,
             normalPt 9, normalPt 10, normalPt 11] from by decide]
        refine BuildR.node _ _ _ _ 3 11 4 _ _ (by decide) (by decide) (by decide) (by decide)
          (by decide) (by decide) (by decide) ?_ ?_
        · rw [show ([normalPt 3, normalPt 4, normalPt 5, normalPt 6, normalPt 7, normalPt 8,
              normalPt 9, normalPt 10,
              normalPt 11].filter fun x => decide (x.get .p99 < 4)) = [normalPt 3] from by
                decide]
          exact BuildR.leaf _ _ _ (Or.inr (by decide))
        · rw [show ([normalPt 3, normalPt 4, normalPt 5, normalPt 6, normalPt 7, normalPt 8,
              normalPt 9, normalPt 10,
              normalPt 11].filter fun x => decide (¬(x.get .p99 < 4))) =
              [normalPt 4, normalPt 5, normalPt 6, normalPt 7, normalPt 8, normalPt 9,
               normalPt 10, normalPt 11] from by decide]
          refine BuildR.node _ _ _ _ 4 11 5 _ _ (by decide) (by decide) (by decide)
            (by decide) (by decide) (by decide) (by decide) ?_ ?_
          · rw [show ([normalPt 4, normalPt 5, normalPt 6, normalPt 7, normalPt 8, normalPt 9,
                normalPt 10,
                normalPt 11].filter fun x => decide (x.get .p99 < 5)) = [normalPt 4] from by
                  decide]
            exact BuildR.leaf _ _ _ (Or.inr (by decide))
          · rw [show ([normalPt 4, normalPt 5, normalPt 6, normalPt 7, normalPt 8, normalPt 9,
                normalPt 10, normalPt 11].filter fun x => decide (¬(x.get .p99 < 5))) =
                [normalPt 5, normalPt 6, normalPt 7, normalPt 8, normalPt 9, normalPt 10,
                 normalPt 11] from by decide]
            refine BuildR.node _ _ _ _ 5 11 6 _ _ (by decide) (by decide) (by decide)
              (by decide) (by decide) (by decide) (by decide) ?_ ?_
            · rw [show ([normalPt 5, normalPt 6, normalPt 7, normalPt 8, normalPt 9,
                  normalPt 10,
                  normalPt 11].filter fun x => decide (x.get .p99 < 6)) = [normalPt 5] from by
                    decide]
              exact BuildR.leaf _ _ _ (Or.inr (by decide))
            · rw [show ([normalPt 5, normalPt 6, normalPt 7, normalPt 8, normalPt 9,
                  normalPt 10, normalPt 11].filter fun x => decide (¬(x.get .p99 < 6))) =
                  [normalPt 6, normalPt 7, normalPt 8, normalPt 9, normalPt 10,
                   normalPt 11] from by decide]
              refine BuildR.node _ _ _ _ 6 11 7 _ _ (by decide) (by decide) (by decide)
                (by decide) (by decide) (by decide) (by decide) ?_ ?_
              · rw [show ([normalPt 6, normalPt 7, normalPt 8, normalPt 9, normalPt 10,
                    normalPt 11].filter fun x => decide (x.get .p99 < 7)) =
                    [normalPt 6] from by decide]
                exact BuildR.leaf _ _ _ (Or.inr (by decide))
              · rw [show ([normalPt 6, normalPt 7, normalPt 8, normalPt 9, normalPt 10,
                    normalPt 11].filter fun x => decide (¬(x.get .p99 < 7))) =
                    [normalPt 7, normalPt 8, normalPt 9, normalPt 10,
                     normalPt 11] from by decide]
                exact BuildR.leaf _ _ _ (Or.inl (by decide))
  · rw [e0r]
    exact BuildR.leaf _ _ _ (Or.inr (by decide))

theorem cexS1_reach : SReach cexS1 := by
  show SReach (ScoringEngine.reset.update (some spikePt) cexHist12 cexForest).2
  refine SReach.step _ _ _ _ SReach.init ?_
  intro _ _ _
  rw [show cexHist12.take BASELINE_TICKS_NEEDED = cexHist12 from by decide]
  constructor
  · simp [cexForest, ScoringEngine.reset, IsolationForest.init]
  · intro t ht
    have hteq : t = cexTree := List.eq_of_mem_replicate ht
    subst hteq
    refine ⟨cexHist12, ⟨cexHist12, List.Perm.refl _, by decide⟩, ?_⟩
    show BuildR cexHist12 (Nat.clog 2 128) 0 cexTree
    rw [clog_two_128]
    exact cexTree_buildable

theorem cexS1_eq : cexS1 = ⟨cexIF, cexEwma1, 0.32, true, cexScore1, [cexScore1]⟩ := by
  have htr : (if ScoringEngine.reset.trained = false
      then ScoringEngine.reset.IF.train (cexHist12.take BASELINE_TICKS_NEEDED) cexForest
      else (true, ScoringEngine.reset.IF)) = (true, cexIF) := by
    rw [if_pos (show ScoringEngine.reset.trained = false from rfl)]
    rw [show cexHist12.take BASELINE_TICKS_NEEDED = cexHist12 from by decide]
    unfold IsolationForest.train
    rw [if_neg (by decide)]
    rfl
  unfold cexS1
  simp only [ScoringEngine.update]
  rw [if_neg (by decide), htr]
  rfl

theorem cexStep2_eq : cexStep2 =
    (⟨cexScore2, .SCORING, none, none, some (roundTo 4 cexIf2), some (roundTo 4 cexEwma2),
      some (roundTo 4 cexComb2), some cexIF.getStats,
      some (computeTrend [cexScore1, cexScore2])⟩,
     ⟨cexIF, cexEwma2, 0.32, true, cexScore2, [cexScore1, cexScore2]⟩) := by
  unfold cexStep2
  rw [cexS1_eq]
  simp only [ScoringEngine.update]
  rw [if_neg (by decide), if_neg (by decide)]
  rfl

theorem cexStep2_reach : SReach cexStep2.2 := by
  show SReach (cexS1.update (some (normalPt 11)) cexHist15 []).2
  refine SReach.step _ _ _ _ cexS1_reach ?_
  intro h
  rw [cexS1_eq] at h
  simp at h

theorem calibrate_ge {x : ℝ} {k : ℤ} {u : ℝ}
    (hhi : Real.exp (-13 * (x - 0.61)) ≤ u)
    (hk : 0 ≤ (k : ℝ) - 1 / 2)
    (h1 : ((k : ℝ) - 1 / 2) * (1 + u) ≤ 100) :
    k ≤ ScoringEngine.calibrate x := by
  unfold ScoringEngine.calibrate
  set E := Real.exp (-13 * (x - 0.61)) with hE
  have hEpos : (0 : ℝ) < E := by rw [hE]; exact Real.exp_pos _
  have hden : (0 : ℝ) < 1 + E := by linarith
  have hv0 : (0 : ℝ) ≤ 100 / (1 + E) := by positivity
  have hv100 : 100 / (1 + E) ≤ 100 := by
    rw [div_le_iff₀ hden]
    nlinarith
  rw [min_eq_right hv100, max_eq_right hv0, round_eq, Int.le_floor]
  have hstep : ((k : ℝ) - 1 / 2) * (1 + E) ≤ 100 := by nlinarith
  have hdiv : (k : ℝ) - 1 / 2 ≤ 100 / (1 + E) := by
    rw [le_div_iff₀ hden]
    exact hstep
  linarith

theorem calibrate_le {x : ℝ} {k : ℤ} {l : ℝ}
    (hlo : l ≤ Real.exp (-13 * (x - 0.61)))
    (hlopos : 0 < l)
    (hk : 0 ≤ (k : ℝ) + 1 / 2)
    (h2 : 100 < ((k : ℝ) + 1 / 2) * (1 + l)) :
    ScoringEngine.calibrate x ≤ k := by
  unfold ScoringEngine.calibrate
  set E := Real.exp (-13 * (x - 0.61)) with hE
  have hEpos : (0 : ℝ) < E := by rw [hE]; exact Real.exp_pos _
  have hden : (0 : ℝ) < 1 + E := by linarith
  have hv0 : (0 : ℝ) ≤ 100 / (1 + E) := by positivity
  have hv100 : 100 / (1 + E) ≤ 100 := by
    rw [div_le_iff₀ hden]
    nlinarith
  rw [min_eq_right hv100, max_eq_right hv0, round_eq]
  have hstep : (100 : ℝ) < ((k : ℝ) + 1 / 2) * (1 + E) := by nlinarith
  have hdiv : 100 / (1 + E) < (k : ℝ) + 1 / 2 := by
    rw [div_lt_iff₀ hden]
    exact hstep
  have hfl : ⌊100 / (1 + E) + 1 / 2⌋ < k + 1 := by
    apply Int.floor_lt.mpr
    push_cast
    linarith
  omega

theorem log127_bounds : (4.8441 : ℝ) ≤ Real.log 127 ∧ Real.log 127 ≤ 4.84422 := by
  have h128 : Real.log 128 = 7 * Real.log 2 := by
    rw [show (128 : ℝ) = 2 ^ 7 by norm_num, Real.log_pow]
    push_cast
    ring
  have hsplit : Real.log (128 / 127 : ℝ) = Real.log 128 - Real.log 127 :=
    Real.log_div (by norm_num) (by norm_num)
  have hA : Real.log (128 / 127 : ℝ) ≤ 1 / 127 := by
    have h1 := Real.log_le_sub_one_of_pos (show (0 : ℝ) < 128 / 127 by norm_num)
    have h2 : (128 / 127 : ℝ) - 1 = 1 / 127 := by norm_num
    linarith
  have hB : (1 / 128 : ℝ) ≤ Real.log (128 / 127) := by
    have h1 := Real.log_le_sub_one_of_pos (show (0 : ℝ) < 127 / 128 by norm_num)
    have h2 : Real.log (128 / 127 : ℝ) = -Real.log (127 / 128) := by
      rw [show (128 / 127 : ℝ) = (127 / 128)⁻¹ by norm_num, Real.log_inv]
    have h3 : (127 / 128 : ℝ) - 1 = -(1 / 128) := by norm_num
    linarith
  have hlog2lo := Real.log_two_gt_d9
  have hlog2hi := Real.log_two_lt_d9
  constructor
  · linarith
  · linarith

theorem cexC128_bounds : (8.858 : ℝ) ≤ IsoTree.c 128 ∧ IsoTree.c 128 ≤ 8.8585 := by
  have h127 := log127_bounds
  unfold IsoTree.c
  rw [if_neg (by norm_num), if_neg (by norm_num)]
  have hcast : ((128 : ℕ) : ℝ) = 128 := by norm_num
  rw [hcast]
  norm_num
  constructor <;> linarith

theorem cexC5_lo : (2.327 : ℝ) ≤ IsoTree.c 5 := by
  unfold IsoTree.c
  rw [if_neg (by norm_num), if_neg (by norm_num)]
  have hcast : ((5 : ℕ) : ℝ) = 5 := by norm_num
  rw [hcast]
  have h4 : Real.log ((5 : ℝ) - 1) = 2 * Real.log 2 := by
    rw [show (5 : ℝ) - 1 = 2 ^ 2 by norm_num, Real.log_pow]
    push_cast
    ring
  rw [h4]
  have hlog2lo := Real.log_two_gt_d9
  nlinarith

theorem path_spike : pathLength cexTree spikePt 0 = 1 := by
  norm_num [pathLength, cexTree, spikePt, MSnap.get, IsoTree.c]

theorem path_normal11 : pathLength cexTree (normalPt 11) 0 = 7 + IsoTree.c 5 := by
  norm_num [pathLength, cexTree, normalPt, MSnap.get]

theorem cexIf1_eq : cexIf1 = (2 : ℝ) ^ (-(1 : ℝ) / IsoTree.c 128) := by
  unfold cexIf1 IsolationForest.score
  rw [if_neg (by decide)]
  simp only [cexIF, cexForest, List.map_replicate, path_spike, List.sum_replicate,
    smul_eq_mul]
  norm_num

theorem cexIf2_eq : cexIf2 = (2 : ℝ) ^ (-(7 + IsoTree.c 5) / IsoTree.c 128) := by
  unfold cexIf2 IsolationForest.score
  rw [if_neg (by decide)]
  simp only [cexIF, cexForest, List.map_replicate, path_normal11, List.sum_replicate,
    nsmul_eq_mul, Nat.cast_ofNat]
  have hcancel : (80 : ℝ) * (7 + IsoTree.c 5) / (80 : ℝ) = 7 + IsoTree.c 5 :=
    mul_div_cancel_left₀ _ (by norm_num)
  rw [hcancel]

theorem cexIf1_bounds : (0.9217 : ℝ) ≤ cexIf1 ∧ cexIf1 ≤ 1 := by
  have hc := cexC128_bounds
  have hcpos : (0 : ℝ) < IsoTree.c 128 := lt_of_lt_of_le (by norm_num) hc.1
  rw [cexIf1_eq]
  constructor
  · rw [Real.rpow_def_of_pos (by norm_num)]
    rw [show Real.log 2 * (-(1 : ℝ) / IsoTree.c 128) =
        -(Real.log 2 * ((1 : ℝ) / IsoTree.c 128)) from by ring]
    have h1 := Real.add_one_le_exp (-(Real.log 2 * ((1 : ℝ) / IsoTree.c 128)))
    have hl2 := Real.log_two_lt_d9
    have hl2' := Real.log_two_gt_d9
    have hd : (1 : ℝ) / IsoTree.c 128 ≤ 1 / 8.858 :=
      one_div_le_one_div_of_le (by norm_num) hc.1
    have hmul : Real.log 2 * ((1 : ℝ) / IsoTree.c 128) ≤ 0.6931471808 * (1 / 8.858) := by
      apply mul_le_mul (le_of_lt hl2) hd (by positivity) (by norm_num)
    linarith
  · apply Real.rpow_le_one_of_one_le_of_nonpos (by norm_num)
    apply div_nonpos_of_nonpos_of_nonneg (by norm_num) hcpos.le

theorem cexIf2_ub : cexIf2 ≤ 0.5782 := by
  have hc := cexC128_bounds
  have hc5 := cexC5_lo
  have hcpos : (0 : ℝ) < IsoTree.c 128 := lt_of_lt_of_le (by norm_num) hc.1
  rw [cexIf2_eq, Real.rpow_def_of_pos (by norm_num)]
  have hexp_eq : Real.log 2 * (-(7 + IsoTree.c 5) / IsoTree.c 128) =
      -(Real.log 2 * ((7 + IsoTree.c 5) / IsoTree.c 128)) := by ring
  rw [hexp_eq]
  have hl2 := Real.log_two_gt_d9
  have hdiv : (9.327 : ℝ) / 8.8585 ≤ (7 + IsoTree.c 5) / IsoTree.c 128 := by
    rw [div_le_div_iff (by norm_num) hcpos]
    nlinarith
  have hu : (0.7297 : ℝ) ≤ Real.log 2 * ((7 + IsoTree.c 5) / IsoTree.c 128) := by
    calc (0.7297 : ℝ) ≤ 0.6931471803 * (9.327 / 8.8585) := by norm_num
    _ ≤ Real.log 2 * ((7 + IsoTree.c 5) / IsoTree.c 128) := by
        apply mul_le_mul (le_of_lt hl2) hdiv (by norm_num) (le_of_lt (lt_trans (by norm_num) hl2))
  have h1 := Real.add_one_le_exp (Real.log 2 * ((7 + IsoTree.c 5) / IsoTree.c 128))
  have hprod : Real.exp (-(Real.log 2 * ((7 + IsoTree.c 5) / IsoTree.c 128))) *
      Real.exp (Real.log 2 * ((7 + IsoTree.c 5) / IsoTree.c 128)) = 1 := by
    rw [← Real.exp_add]
    ring_nf
    exact Real.exp_zero
  nlinarith [Real.exp_pos (-(Real.log 2 * ((7 + IsoTree.c 5) / IsoTree.c 128))),
    Real.exp_pos (Real.log 2 * ((7 + IsoTree.c 5) / IsoTree.c 128))]

theorem cexComb1_lb : (0.8127 : ℝ) ≤ cexComb1 := by
  have h := cexIf1_bounds
  unfold cexComb1 cexEwma1
  nlinarith [h.1]

theorem cexComb2_ub : cexComb2 ≤ 0.5994 := by
  have h1 := cexIf1_bounds
  have h2 := cexIf2_ub
  unfold cexComb2 cexEwma2 cexEwma1
  nlinarith [h1.2, h2]

theorem cexScore1_ge : (90 : ℤ) ≤ cexScore1 := by
  unfold cexScore1
  apply calibrate_ge (u := 1 / 9)
  · have hb : (9 : ℝ) ≤ (1 + (2.6351 : ℝ) / 128) ^ (128 : ℕ) := by norm_num
    have hcc := exp_ge_pow128 2.6351 (by norm_num)
    have hmono : Real.exp 2.6351 ≤ Real.exp (13 * (cexComb1 - 0.61)) := by
      apply Real.exp_le_exp.mpr
      nlinarith [cexComb1_lb]
    have h9 : (9 : ℝ) ≤ Real.exp (13 * (cexComb1 - 0.61)) := by linarith
    have hprod : Real.exp (-13 * (cexComb1 - 0.61)) * Real.exp (13 * (cexComb1 - 0.61)) = 1 := by
      rw [← Real.exp_add]
      ring_nf
      exact Real.exp_zero
    nlinarith [Real.exp_pos (-13 * (cexComb1 - 0.61)), Real.exp_pos (13 * (cexComb1 - 0.61))]
  · norm_num
  · norm_num

theorem cexScore2_le : cexScore2 ≤ 47 := by
  unfold cexScore2
  apply calibrate_le (l := 1.13)
  · have h := Real.add_one_le_exp (-13 * (cexComb2 - 0.61))
    nlinarith [cexComb2_ub]
  · norm_num
  · norm_num
  · norm_num

/-- C8 counterexample: a reachable session trace — 11 flat baseline ticks,
an error-rate spike at the training tick (score ≥ 90), then a recovered
flat tick (score ≤ 47) — leaves the buffer with 2 scores whose mean is
more than 8 below the oldest of them, so the claim's rule says `falling`;
the code's `_computeTrend` nevertheless returns `stable`, because it
returns `stable` whenever fewer than 3 scores are buffered. -/
theorem scoring_trend_short_buffer_cex :
    SReach cexStep2.2
  ∧ cexStep2.1.phase = Phase.SCORING
  ∧ cexStep2.1.trend = some Trend.stable
  ∧ cexStep2.2.scoreHistory = [cexScore1, cexScore2]
  ∧ trendAvg [cexScore1, cexScore2] - trendPrev [cexScore1, cexScore2] < -8 := by
  refine ⟨cexStep2_reach, ?_, ?_, ?_, ?_⟩
  · rw [cexStep2_eq]
  · rw [cexStep2_eq]
    show some (computeTrend [cexScore1, cexScore2]) = some Trend.stable
    congr 1
  · rw [cexStep2_eq]
  · have h1 := cexScore1_ge
    have h2 := cexScore2_le
    have ha : (90 : ℚ) ≤ (cexScore1 : ℚ) := by exact_mod_cast h1
    have hb : (cexScore2 : ℚ) ≤ 47 := by exact_mod_cast h2
    simp only [trendAvg, trendPrev, recent6, List.length_cons, List.length_nil,
      List.map_cons, List.map_nil, List.sum_cons, List.sum_nil]
    norm_num
    linarith

end DeployShield
